import Mathlib

/-!
# NHS automated triage kiosk: embedding of `main.cpp`

The console program is embedded as pure functions.  Everything the program
reads from `cin` is a field of `Input` (one field per read statement, holding
the value the operator gives when that statement is reached); everything it
writes to `cout` is an `Output` event appended to a log; `exit(0)` inside
`trigger999` is the `exited` result, which skips the rest of the session.
-/

namespace NHSTriage

/-! ## Data model -/

/-- Urgency levels, `enum UrgencyCode` (main.cpp 14-21). -/
inductive UrgencyCode where
  | RED_CRITICAL
  | ORANGE_MAJOR
  | AMBER_HOSPITAL
  | YELLOW_WALK_IN
  | GREEN_GP
  | BLUE_PHARMACY
  deriving DecidableEq, Repr

/-- Enumerator values of `UrgencyCode`: RED = 1, ..., BLUE = 6. -/
def UrgencyCode.toInt : UrgencyCode → Int
  | .RED_CRITICAL => 1
  | .ORANGE_MAJOR => 2
  | .AMBER_HOSPITAL => 3
  | .YELLOW_WALK_IN => 4
  | .GREEN_GP => 5
  | .BLUE_PHARMACY => 6

/-- The call `std::min(a, b)` on two codes: `(b < a) ? b : a`, the comparison being
that of the enumerator values. -/
def UrgencyCode.min (a b : UrgencyCode) : UrgencyCode :=
  if b.toInt < a.toInt then b else a

/-- Record `struct Patient` (main.cpp 23-37).  `temp` is the value held by the
`double`, taken as an exact number.  The fields without an initializer in the source
(`patientID`, `age`, `gender`) get a placeholder default here; `registerPatient` assigns
them before anything reads them. -/
structure Patient where
  fullName : String := ""
  patientID : Int := 0
  age : Int := 0
  gender : Char := ' '
  spO2 : Int := -1
  temp : ℚ := -1
  sysBP : Int := -1
  code : UrgencyCode := .BLUE_PHARMACY
  clinicalNotes : String := ""
  symptomCategory : Int := 0

/-- What the operator types: one field per `cin >>` statement and per `ask` question
(the resolved yes/no answer), and the value `rand()` returns. -/
structure Input where
  fullName : String
  age : Int
  gender : Char
  spO2 : Int
  sysBP : Int
  temp : ℚ
  choice : Int
  cold : Bool
  crushing : Bool
  radiating : Bool
  worseInhale : Bool
  tearing : Bool
  pregnancy : Bool
  lowerRight : Bool
  fast : Bool
  struck : Bool
  loc : Bool
  thinners : Bool
  vomited : Bool
  rand : Nat

/-- What the program writes to `cout`, one event per block of print statements. -/
inductive Output where
  /-- a section heading such as `[VITALS CHECK]` -/
  | heading (s : String)
  /-- the prompt of a `cin >>` read or of an `ask` question -/
  | prompt (s : String)
  /-- the line `[SYSTEM] Profile Created. ID: #id for name` -/
  | profileCreated (patientID : Int) (fullName : String)
  /-- the 999 block printed by `trigger999`, with its `REASON:` line -/
  | emergency999 (reason : String)
  /-- the final result block: patient, age, triage result and `CLINICAL NOTES:` -/
  | triageResult (fullName : String) (age : Int) (code : UrgencyCode) (clinicalNotes : String)
  /-- the line `WAIT TIME: 0 MINS (IMMEDIATE ENTRY)` -/
  | waitImmediate
  /-- the line `TIMEFRAME: Book appointment within 48 hours.` -/
  | timeframe48h
  /-- the line `ESTIMATED A&E WAIT TIME: m minutes.` -/
  | waitMinutes (minutes : Int)
  /-- the safety-netting block with its advisory lines -/
  | safetyNetting (advice : String)
  deriving DecidableEq

/-- How a call ends: the process exited inside `trigger999`, or the call returned. Both
carry the output written so far. -/
inductive Result (α : Type) where
  | exited (reason : String) (out : List Output)
  | returned (a : α) (out : List Output)

/-- A program fragment: from the output written so far to a result. -/
def Kiosk (α : Type) : Type := List Output → Result α

/-- Sequencing of statements; nothing runs after an exit. -/
def Kiosk.bind {α β : Type} (m : Kiosk α) (f : α → Kiosk β) : Kiosk β :=
  fun out =>
    match m out with
    | .exited r o => .exited r o
    | .returned a o => f a o

instance : Monad Kiosk where
  pure a := fun out => .returned a out
  bind := Kiosk.bind

/-- One print block written to `cout`. -/
def cout (e : Output) : Kiosk Unit :=
  fun out => .returned () (out ++ [e])

/-! ## The program -/

/-- Helper `ask` (main.cpp 44-53): prints the question and returns the resolved
answer (`answer` is what the loop returns once the operator types y or n). -/
def ask (q : String) (answer : Bool) : Kiosk Bool := do
  cout (.prompt q)
  pure answer

/-- Emergency trigger `trigger999` (main.cpp 56-63): prints the 999 block and calls
`exit(0)`. -/
def trigger999 {α : Type} (reason : String) : Kiosk α :=
  fun out => .exited reason (out ++ [.emergency999 reason])

/-- Initial value of `currentIDCounter` (main.cpp 41). -/
def currentIDCounter : Int := 1001

/-- Module 1 `registerPatient` (main.cpp 66-84). -/
def registerPatient (inp : Input) (p : Patient) : Kiosk Patient := do
  cout (.heading "--- PATIENT REGISTRATION ---")
  cout (.prompt "Enter Full Name: ")
  let p := { p with fullName := inp.fullName }
  let p := { p with patientID := currentIDCounter }
  cout (.prompt "Enter Age: ")
  let p := { p with age := inp.age }
  cout (.prompt "Enter Gender (M/F): ")
  let p := { p with gender := inp.gender }
  cout (.profileCreated p.patientID p.fullName)
  pure p

/-- Module 2 `checkVitals` (main.cpp 87-120). -/
def checkVitals (inp : Input) (p : Patient) : Kiosk Patient := do
  let mut p := p
  cout (.heading "[VITALS CHECK]")
  cout (.prompt "SpO2 % (0 to skip): ")
  p := { p with spO2 := inp.spO2 }
  if p.spO2 > 0 ∧ p.spO2 ≤ 90 then
    trigger999 "Severe Hypoxia (SpO2 <= 90%)"
  if p.spO2 > 0 ∧ p.spO2 ≤ 94 then
    p := { p with code := p.code.min .AMBER_HOSPITAL }
    p := { p with clinicalNotes := p.clinicalNotes ++ "Hypoxia (91-94%). " }
  if p.age > 12 then
    cout (.prompt "Systolic BP (0 to skip): ")
    p := { p with sysBP := inp.sysBP }
    if p.sysBP > 0 ∧ p.sysBP < 90 then
      trigger999 "Hypotension / Shock (BP < 90)"
    if p.sysBP > 220 then
      p := { p with code := p.code.min .ORANGE_MAJOR }
      p := { p with clinicalNotes := p.clinicalNotes ++ "Hypertensive Crisis Risk. " }
  cout (.prompt "Temp (C) (0 to skip): ")
  p := { p with temp := inp.temp }
  if p.temp > 38 then
    if p.age = 0 then
      trigger999 "Infant Fever (Sepsis Risk)"
    if p.age ≥ 75 then
      p := { p with code := p.code.min .AMBER_HOSPITAL }
      p := { p with clinicalNotes := p.clinicalNotes ++ "Elderly Fever Risk. " }
  pure p

/-- Module 3, chest chart `assessChest` (main.cpp 123-138). -/
def assessChest (inp : Input) (p : Patient) : Kiosk Patient := do
  let mut p := p
  p := { p with symptomCategory := 1 }
  cout (.heading "[ASSESSING CHEST/HEART]")
  if (← ask "Is the patient cold, clammy, or pale?" inp.cold) then
    trigger999 "Cardiac Shock Signs"
  let crushing ← ask "Is there heavy pressure/crushing pain?" inp.crushing
  let radiating ← ask "Does pain radiate to jaw, neck or left arm?" inp.radiating
  if crushing || radiating then
    p := { p with code := p.code.min .ORANGE_MAJOR }
    p := { p with clinicalNotes := p.clinicalNotes ++ "Cardiac Chest Pain (STEMI Risk). " }
  else if (← ask "Is pain worse when breathing in?" inp.worseInhale) then
    p := { p with code := p.code.min .YELLOW_WALK_IN }
    p := { p with clinicalNotes := p.clinicalNotes ++ "Pleuritic Pain. " }
  pure p

/-- The call `toupper(c)` on a `char`, in the C locale. -/
def toupper (c : Char) : Char := c.toUpper

/-- Module 3, stomach chart `assessStomach` (main.cpp 140-155).  The `&&` of line 143
asks its question only when `p.age > 50`. -/
def assessStomach (inp : Input) (p : Patient) : Kiosk Patient := do
  let mut p := p
  p := { p with symptomCategory := 2 }
  cout (.heading "[ASSESSING STOMACH]")
  if p.age > 50 then
    if (← ask "Is there tearing pain radiating to the back?" inp.tearing) then
      trigger999 "Suspected AAA Rupture"
  if toupper p.gender = 'F' ∧ p.age ≥ 12 ∧ p.age ≤ 50 then
    if (← ask "Is there any possibility of pregnancy?" inp.pregnancy) then
      p := { p with code := p.code.min .AMBER_HOSPITAL }
      p := { p with clinicalNotes := p.clinicalNotes ++ "Pregnancy Risk (Rule out Ectopic). " }
  if (← ask "Is pain in the lower right side?" inp.lowerRight) then
    p := { p with code := p.code.min .AMBER_HOSPITAL }
    p := { p with clinicalNotes := p.clinicalNotes ++ "Possible Appendicitis. " }
  pure p

/-- Module 3, head chart `assessHead` (main.cpp 157-175). -/
def assessHead (inp : Input) (p : Patient) : Kiosk Patient := do
  let mut p := p
  p := { p with symptomCategory := 3 }
  cout (.heading "[ASSESSING HEAD/NEURO]")
  if p.age > 40 then
    if (← ask "Any facial drooping, arm weakness, or slurred speech?" inp.fast) then
      trigger999 "Stroke (FAST Positive)"
  if (← ask "Did they hit their head?" inp.struck) then
    if (← ask "Any loss of consciousness?" inp.loc) then
      if p.age ≥ 65 then
        trigger999 "Head Injury + Elderly (Bleed Risk)"
      if (← ask "Are they on blood thinners?" inp.thinners) then
        trigger999 "Head Injury + Anticoagulants"
      p := { p with code := p.code.min .ORANGE_MAJOR }
      p := { p with clinicalNotes := p.clinicalNotes ++ "Concussion with LOC. " }
    if (← ask "Have they vomited >1 time?" inp.vomited) then
      p := { p with code := p.code.min .AMBER_HOSPITAL }
      p := { p with clinicalNotes := p.clinicalNotes ++ "Head Injury + Vomiting. " }
  pure p

/-- Module 4 `printEstimatedWait` (main.cpp 178-194).  `inp.rand` is the value of
`rand()`.  In the `switch`, `case GREEN_GP` has no `break`, so it falls through to
`default` and `minutes` ends as 0 for GREEN as for BLUE. -/
def printEstimatedWait (inp : Input) (code : UrgencyCode) : Kiosk Unit := do
  let busyFactor : Int := (inp.rand : Int) % 30
  let minutes : Int :=
    match code with
    | .RED_CRITICAL => 0
    | .ORANGE_MAJOR => 10
    | .AMBER_HOSPITAL => 60 + busyFactor
    | .YELLOW_WALK_IN => 120 + busyFactor
    | .GREEN_GP => 0
    | .BLUE_PHARMACY => 0
  cout (.heading "[LOGISTICS ESTIMATE]")
  if code = .RED_CRITICAL then
    cout .waitImmediate
  else if code.toInt ≥ UrgencyCode.GREEN_GP.toInt then
    cout .timeframe48h
  else
    cout (.waitMinutes minutes)

/-- Advisory lines of `case 1` (main.cpp 202). -/
def chestAdvice : String :=
  "[!] You become unable to speak full sentences. [!] Pain spreads to neck, jaw, or back."

/-- Advisory lines of `case 2` (main.cpp 204). -/
def stomachAdvice : String :=
  "[!] You vomit blood. [!] You cannot pass urine for 12 hours."

/-- Advisory lines of `case 3` (main.cpp 206). -/
def headAdvice : String :=
  "[!] You vomit more than twice. [!] You become confused or have a seizure."

/-- Advisory line of `default` (main.cpp 208). -/
def defaultAdvice : String :=
  "[!] You develop a high fever (>39C) or a rash that doesn't fade."

/-- Module 4 `printSafetyNetting` (main.cpp 196-211): returns at once when
`p.code <= AMBER_HOSPITAL`, otherwise prints the block chosen by the `switch`. -/
def printSafetyNetting (p : Patient) : Kiosk Unit := do
  if p.code.toInt ≤ UrgencyCode.AMBER_HOSPITAL.toInt then
    pure ()
  else if p.symptomCategory = 1 then
    cout (.safetyNetting chestAdvice)
  else if p.symptomCategory = 2 then
    cout (.safetyNetting stomachAdvice)
  else if p.symptomCategory = 3 then
    cout (.safetyNetting headAdvice)
  else
    cout (.safetyNetting defaultAdvice)

/-- The statement `switch(choice)` of `start` (main.cpp 228-233). -/
def selectSymptom (inp : Input) (p : Patient) : Kiosk Patient := do
  if inp.choice = 1 then
    assessChest inp p
  else if inp.choice = 2 then
    assessStomach inp p
  else if inp.choice = 3 then
    assessHead inp p
  else
    let p := { p with symptomCategory := 4 }
    let p := { p with clinicalNotes := p.clinicalNotes ++ "General/Fever. " }
    pure p

/-- Session `start` (main.cpp 214-254).  The value returned is the patient record as
it stands when `start` returns. -/
def start (inp : Input) : Kiosk Patient := do
  let p : Patient := {}
  cout (.heading "=== NHS DIGITAL TRIAGE KIOSK ===")
  let p ← registerPatient inp p
  let p ← checkVitals inp p
  cout (.prompt
    "SELECT SYMPTOM: 1. Chest/Breathing 2. Stomach Pain 3. Head Injury/Stroke 4. Other/Fever")
  let p ← selectSymptom inp p
  cout (.triageResult p.fullName p.age p.code p.clinicalNotes)
  printEstimatedWait inp p.code
  printSafetyNetting p
  pure p

/-- A whole run of the program: `main` calls `start` with nothing printed yet. -/
def runSession (inp : Input) : Result Patient := start inp []

/-! ## Closed forms of the stages

For each stage: which emergency it raises (if any), which prompts it prints, and the
patient record it returns.  Each is proved equal to the stage itself below. -/

/-- Output that belongs to the dialogue with the operator (headings, prompts, the
registration line), as opposed to the 999 block and the resolution output. -/
def Output.isDialogue : Output → Bool
  | .heading _ => true
  | .prompt _ => true
  | .profileCreated _ _ => true
  | _ => false

/-- Resolution output: the result block with the clinical notes, the wait-time lines and
the safety-netting block. -/
def Output.isResolution : Output → Bool
  | .triageResult _ _ _ _ => true
  | .waitImmediate => true
  | .timeframe48h => true
  | .waitMinutes _ => true
  | .safetyNetting _ => true
  | _ => false

/-- The code after a rule that proposes `d` and fires when `fired` holds:
`min(c, d)` if it fires, `c` if not. -/
def UrgencyCode.minIf (c : UrgencyCode) (fired : Prop) [Decidable fired] (d : UrgencyCode) :
    UrgencyCode :=
  if fired then c.min d else c

/-- The text a rule appends to the notes: its note if it fires, nothing if not. -/
def noteIf (fired : Prop) [Decidable fired] (note : String) : String :=
  if fired then note else ""

/-- Result of a stage that prints `log` and then either exits with the emergency `em`
or returns `a`. -/
def Result.stage {α : Type} (em : Option String) (log : List Output) (a : α)
    (out : List Output) : Result α :=
  match em with
  | some r => .exited r (out ++ log ++ [.emergency999 r])
  | none => .returned a (out ++ log)

/-- The patient record `registerPatient` returns. -/
def registeredPatient (inp : Input) (p : Patient) : Patient :=
  { p with fullName := inp.fullName, patientID := currentIDCounter, age := inp.age,
           gender := inp.gender }

/-- What `registerPatient` prints. -/
def registerLog (inp : Input) : List Output :=
  [.heading "--- PATIENT REGISTRATION ---", .prompt "Enter Full Name: ", .prompt "Enter Age: ",
   .prompt "Enter Gender (M/F): ", .profileCreated currentIDCounter inp.fullName]

/-- The emergency `checkVitals` raises, first in program order. -/
def vitalsEmergency (inp : Input) (p : Patient) : Option String :=
  if inp.spO2 > 0 ∧ inp.spO2 ≤ 90 then some "Severe Hypoxia (SpO2 <= 90%)"
  else if p.age > 12 ∧ inp.sysBP > 0 ∧ inp.sysBP < 90 then some "Hypotension / Shock (BP < 90)"
  else if inp.temp > 38 ∧ p.age = 0 then some "Infant Fever (Sepsis Risk)"
  else none

/-- What `checkVitals` prints before it exits or returns. -/
def vitalsLog (inp : Input) (p : Patient) : List Output :=
  [.heading "[VITALS CHECK]", .prompt "SpO2 % (0 to skip): "] ++
    if inp.spO2 > 0 ∧ inp.spO2 ≤ 90 then []
    else
      (if p.age > 12 then [.prompt "Systolic BP (0 to skip): "] else []) ++
        if p.age > 12 ∧ inp.sysBP > 0 ∧ inp.sysBP < 90 then []
        else [.prompt "Temp (C) (0 to skip): "]

/-- The patient record `checkVitals` returns when it raises no emergency. -/
def vitalsPatient (inp : Input) (p : Patient) : Patient :=
  { p with
    spO2 := inp.spO2
    sysBP := if p.age > 12 then inp.sysBP else p.sysBP
    temp := inp.temp
    code :=
      ((p.code.minIf (inp.spO2 > 0 ∧ inp.spO2 ≤ 94) .AMBER_HOSPITAL).minIf
        (p.age > 12 ∧ inp.sysBP > 220) .ORANGE_MAJOR).minIf
        (inp.temp > 38 ∧ p.age ≥ 75) .AMBER_HOSPITAL
    clinicalNotes :=
      p.clinicalNotes ++ noteIf (inp.spO2 > 0 ∧ inp.spO2 ≤ 94) "Hypoxia (91-94%). " ++
        noteIf (p.age > 12 ∧ inp.sysBP > 220) "Hypertensive Crisis Risk. " ++
        noteIf (inp.temp > 38 ∧ p.age ≥ 75) "Elderly Fever Risk. " }

/-- The emergency `assessChest` raises. -/
def chestEmergency (inp : Input) : Option String :=
  if inp.cold then some "Cardiac Shock Signs" else none

/-- What `assessChest` prints before it exits or returns. -/
def chestLog (inp : Input) : List Output :=
  [.heading "[ASSESSING CHEST/HEART]", .prompt "Is the patient cold, clammy, or pale?"] ++
    if inp.cold then []
    else
      [.prompt "Is there heavy pressure/crushing pain?",
       .prompt "Does pain radiate to jaw, neck or left arm?"] ++
        if inp.crushing || inp.radiating then [] else [.prompt "Is pain worse when breathing in?"]

/-- The patient record `assessChest` returns when it raises no emergency. -/
def chestPatient (inp : Input) (p : Patient) : Patient :=
  { p with
    symptomCategory := 1
    code :=
      (p.code.minIf (inp.crushing = true ∨ inp.radiating = true) .ORANGE_MAJOR).minIf
        (¬ (inp.crushing = true ∨ inp.radiating = true) ∧ inp.worseInhale = true) .YELLOW_WALK_IN
    clinicalNotes :=
      p.clinicalNotes ++
        noteIf (inp.crushing = true ∨ inp.radiating = true) "Cardiac Chest Pain (STEMI Risk). " ++
        noteIf (¬ (inp.crushing = true ∨ inp.radiating = true) ∧ inp.worseInhale = true)
          "Pleuritic Pain. " }

/-- The emergency `assessStomach` raises. -/
def stomachEmergency (inp : Input) (p : Patient) : Option String :=
  if p.age > 50 ∧ inp.tearing = true then some "Suspected AAA Rupture" else none

/-- What `assessStomach` prints before it exits or returns. -/
def stomachLog (inp : Input) (p : Patient) : List Output :=
  [.heading "[ASSESSING STOMACH]"] ++
    (if p.age > 50 then [.prompt "Is there tearing pain radiating to the back?"] else []) ++
      if p.age > 50 ∧ inp.tearing = true then []
      else
        (if toupper p.gender = 'F' ∧ p.age ≥ 12 ∧ p.age ≤ 50 then
            [.prompt "Is there any possibility of pregnancy?"]
          else []) ++
          [.prompt "Is pain in the lower right side?"]

/-- The patient record `assessStomach` returns when it raises no emergency. -/
def stomachPatient (inp : Input) (p : Patient) : Patient :=
  { p with
    symptomCategory := 2
    code :=
      (p.code.minIf ((toupper p.gender = 'F' ∧ p.age ≥ 12 ∧ p.age ≤ 50) ∧ inp.pregnancy = true)
        .AMBER_HOSPITAL).minIf (inp.lowerRight = true) .AMBER_HOSPITAL
    clinicalNotes :=
      p.clinicalNotes ++
        noteIf ((toupper p.gender = 'F' ∧ p.age ≥ 12 ∧ p.age ≤ 50) ∧ inp.pregnancy = true)
          "Pregnancy Risk (Rule out Ectopic). " ++
        noteIf (inp.lowerRight = true) "Possible Appendicitis. " }

/-- The emergency `assessHead` raises, first in program order. -/
def headEmergency (inp : Input) (p : Patient) : Option String :=
  if p.age > 40 ∧ inp.fast = true then some "Stroke (FAST Positive)"
  else if inp.struck = true ∧ inp.loc = true ∧ p.age ≥ 65 then
    some "Head Injury + Elderly (Bleed Risk)"
  else if inp.struck = true ∧ inp.loc = true ∧ inp.thinners = true then
    some "Head Injury + Anticoagulants"
  else none

/-- What `assessHead` prints before it exits or returns. -/
def headLog (inp : Input) (p : Patient) : List Output :=
  [.heading "[ASSESSING HEAD/NEURO]"] ++
    (if p.age > 40 then [.prompt "Any facial drooping, arm weakness, or slurred speech?"]
      else []) ++
      if p.age > 40 ∧ inp.fast = true then []
      else
        [.prompt "Did they hit their head?"] ++
          if inp.struck = true then
            [.prompt "Any loss of consciousness?"] ++
              (if inp.loc = true then
                if p.age ≥ 65 then []
                else
                  [.prompt "Are they on blood thinners?"] ++
                    if inp.thinners = true then [] else [.prompt "Have they vomited >1 time?"]
              else [.prompt "Have they vomited >1 time?"])
          else []

/-- The patient record `assessHead` returns when it raises no emergency. -/
def headPatient (inp : Input) (p : Patient) : Patient :=
  { p with
    symptomCategory := 3
    code :=
      (p.code.minIf (inp.struck = true ∧ inp.loc = true) .ORANGE_MAJOR).minIf
        (inp.struck = true ∧ inp.vomited = true) .AMBER_HOSPITAL
    clinicalNotes :=
      p.clinicalNotes ++ noteIf (inp.struck = true ∧ inp.loc = true) "Concussion with LOC. " ++
        noteIf (inp.struck = true ∧ inp.vomited = true) "Head Injury + Vomiting. " }

/-- The emergency the `switch(choice)` statement raises. -/
def treeEmergency (inp : Input) (p : Patient) : Option String :=
  if inp.choice = 1 then chestEmergency inp
  else if inp.choice = 2 then stomachEmergency inp p
  else if inp.choice = 3 then headEmergency inp p
  else none

/-- What the `switch(choice)` statement prints before it exits or completes. -/
def treeLog (inp : Input) (p : Patient) : List Output :=
  if inp.choice = 1 then chestLog inp
  else if inp.choice = 2 then stomachLog inp p
  else if inp.choice = 3 then headLog inp p
  else []

/-- The patient record after the `switch(choice)` statement, when it raises no emergency. -/
def treePatient (inp : Input) (p : Patient) : Patient :=
  if inp.choice = 1 then chestPatient inp p
  else if inp.choice = 2 then stomachPatient inp p
  else if inp.choice = 3 then headPatient inp p
  else { p with symptomCategory := 4, clinicalNotes := p.clinicalNotes ++ "General/Fever. " }

/-- The line `printEstimatedWait` prints after its heading. -/
def waitOutput (inp : Input) (code : UrgencyCode) : Output :=
  match code with
  | .RED_CRITICAL => .waitImmediate
  | .ORANGE_MAJOR => .waitMinutes 10
  | .AMBER_HOSPITAL => .waitMinutes (60 + (inp.rand : Int) % 30)
  | .YELLOW_WALK_IN => .waitMinutes (120 + (inp.rand : Int) % 30)
  | .GREEN_GP => .timeframe48h
  | .BLUE_PHARMACY => .timeframe48h

/-- The advisory block the `switch(p.symptomCategory)` of `printSafetyNetting` selects. -/
def adviceFor (category : Int) : String :=
  if category = 1 then chestAdvice
  else if category = 2 then stomachAdvice
  else if category = 3 then headAdvice
  else defaultAdvice

/-- What `printSafetyNetting` prints. -/
def safetyLog (p : Patient) : List Output :=
  if p.code.toInt ≤ UrgencyCode.AMBER_HOSPITAL.toInt then []
  else [.safetyNetting (adviceFor p.symptomCategory)]

/-- The patient record after registration in a session. -/
def sessionRegistered (inp : Input) : Patient := registeredPatient inp {}

/-- The patient record after the vitals check in a session that raises no vitals
emergency. -/
def sessionVitals (inp : Input) : Patient := vitalsPatient inp (sessionRegistered inp)

/-- The patient record at the end of a session that raises no emergency. -/
def sessionFinal (inp : Input) : Patient := treePatient inp (sessionVitals inp)

/-- The emergency a session raises, first in program order. -/
def sessionEmergency (inp : Input) : Option String :=
  match vitalsEmergency inp (sessionRegistered inp) with
  | some r => some r
  | none => treeEmergency inp (sessionVitals inp)

/-- The prompt of the symptom menu (main.cpp 225). -/
def selectPrompt : Output :=
  .prompt "SELECT SYMPTOM: 1. Chest/Breathing 2. Stomach Pain 3. Head Injury/Stroke 4. Other/Fever"

/-- What a session prints before it exits or reaches the final result. -/
def dialogueLog (inp : Input) : List Output :=
  [.heading "=== NHS DIGITAL TRIAGE KIOSK ==="] ++ registerLog inp ++
    vitalsLog inp (sessionRegistered inp) ++
      match vitalsEmergency inp (sessionRegistered inp) with
      | some _ => []
      | none => [selectPrompt] ++ treeLog inp (sessionVitals inp)

/-- What a session prints from the final result on (main.cpp 235-253). -/
def resolutionLog (inp : Input) (p : Patient) : List Output :=
  [.triageResult p.fullName p.age p.code p.clinicalNotes, .heading "[LOGISTICS ESTIMATE]",
   waitOutput inp p.code] ++ safetyLog p

/-! ## The claims in the words of the specification -/

/-- The emergency conditions of a session, as the specification lists them. -/
def emergencyCondition (inp : Input) : Prop :=
  (inp.spO2 > 0 ∧ inp.spO2 ≤ 90) ∨
  (inp.age > 12 ∧ inp.sysBP > 0 ∧ inp.sysBP < 90) ∨
  (inp.temp > 38 ∧ inp.age = 0) ∨
  (inp.choice = 1 ∧ inp.cold = true) ∨
  (inp.choice = 2 ∧ inp.age > 50 ∧ inp.tearing = true) ∨
  (inp.choice = 3 ∧ inp.age > 40 ∧ inp.fast = true) ∨
  (inp.choice = 3 ∧ inp.struck = true ∧ inp.loc = true ∧ (inp.age ≥ 65 ∨ inp.thinners = true))

instance (inp : Input) : Decidable (emergencyCondition inp) := by
  unfold emergencyCondition
  infer_instance

/-- The codes proposed by the rules that fire in a session, as the specification lists
the rules: one entry per fired rule. -/
def firedProposals (inp : Input) : List UrgencyCode :=
  (if 91 ≤ inp.spO2 ∧ inp.spO2 ≤ 94 then [.AMBER_HOSPITAL] else []) ++
  (if inp.age > 12 ∧ inp.sysBP > 220 then [.ORANGE_MAJOR] else []) ++
  (if inp.temp > 38 ∧ inp.age ≥ 75 then [.AMBER_HOSPITAL] else []) ++
  (if inp.choice = 1 ∧ (inp.crushing = true ∨ inp.radiating = true) then [.ORANGE_MAJOR]
    else []) ++
  (if inp.choice = 1 ∧ ¬ (inp.crushing = true ∨ inp.radiating = true) ∧ inp.worseInhale = true
    then [.YELLOW_WALK_IN] else []) ++
  (if inp.choice = 2 ∧ (inp.gender = 'F' ∨ inp.gender = 'f') ∧ 12 ≤ inp.age ∧ inp.age ≤ 50 ∧
      inp.pregnancy = true then [.AMBER_HOSPITAL] else []) ++
  (if inp.choice = 2 ∧ inp.lowerRight = true then [.AMBER_HOSPITAL] else []) ++
  (if inp.choice = 3 ∧ inp.struck = true ∧ inp.loc = true then [.ORANGE_MAJOR] else []) ++
  (if inp.choice = 3 ∧ inp.struck = true ∧ inp.vomited = true then [.AMBER_HOSPITAL] else [])

/-- The smallest ordinal among the proposed codes, and 6 (BLUE) when there is none. -/
def mostUrgentOrdinal (proposals : List UrgencyCode) : Int :=
  (proposals.map UrgencyCode.toInt).foldr Min.min 6

/-- Notes of the vitals rules that fire, in the order of the rule table. -/
def vitalsNotes (age spO2 sysBP : Int) (temp : ℚ) : String :=
  (if 91 ≤ spO2 ∧ spO2 ≤ 94 then "Hypoxia (91-94%). " else "") ++
  (if age > 12 ∧ sysBP > 220 then "Hypertensive Crisis Risk. " else "") ++
  (if temp > 38 ∧ age ≥ 75 then "Elderly Fever Risk. " else "")

/-- The codes proposed by the vitals rules that fire, in the order of the rule table:
AMBER for SpO2 in 91..94, ORANGE for age > 12 with systolic BP > 220, AMBER for
temperature > 38.0 with age >= 75. -/
def vitalsProposals (age spO2 sysBP : Int) (temp : ℚ) : List UrgencyCode :=
  (if 91 ≤ spO2 ∧ spO2 ≤ 94 then [.AMBER_HOSPITAL] else []) ++
  (if age > 12 ∧ sysBP > 220 then [.ORANGE_MAJOR] else []) ++
  (if temp > 38 ∧ age ≥ 75 then [.AMBER_HOSPITAL] else [])

/-- The emergency conditions of the vitals stage, as the specification lists them. -/
def vitalsEmergencyCondition (age spO2 sysBP : Int) (temp : ℚ) : Prop :=
  (spO2 > 0 ∧ spO2 ≤ 90) ∨ (age > 12 ∧ sysBP > 0 ∧ sysBP < 90) ∨ (temp > 38 ∧ age = 0)

instance (age spO2 sysBP : Int) (temp : ℚ) :
    Decidable (vitalsEmergencyCondition age spO2 sysBP temp) := by
  unfold vitalsEmergencyCondition
  infer_instance

/-- Notes of the chest rules that fire: cardiac chest pain, else pleuritic pain. -/
def chestNotes (inp : Input) : String :=
  (if inp.crushing = true ∨ inp.radiating = true then "Cardiac Chest Pain (STEMI Risk). "
    else "") ++
  (if ¬ (inp.crushing = true ∨ inp.radiating = true) ∧ inp.worseInhale = true then
    "Pleuritic Pain. " else "")

/-- Notes of the stomach rules that fire: pregnancy risk, then possible appendicitis. -/
def stomachNotes (inp : Input) (p : Patient) : String :=
  (if (p.gender = 'F' ∨ p.gender = 'f') ∧ 12 ≤ p.age ∧ p.age ≤ 50 ∧ inp.pregnancy = true then
    "Pregnancy Risk (Rule out Ectopic). " else "") ++
  (if inp.lowerRight = true then "Possible Appendicitis. " else "")

/-- Notes of the head rules that fire: concussion with LOC, then head injury + vomiting. -/
def headNotes (inp : Input) : String :=
  (if inp.struck = true ∧ inp.loc = true then "Concussion with LOC. " else "") ++
  (if inp.struck = true ∧ inp.vomited = true then "Head Injury + Vomiting. " else "")

/-! ## Scenarios -/

/-- A session with every reading skipped and every answer no, on the Other branch. -/
def quietInput : Input :=
  { fullName := "A Patient", age := 30, gender := 'M', spO2 := 0, sysBP := 0, temp := 0,
    choice := 4, cold := false, crushing := false, radiating := false, worseInhale := false,
    tearing := false, pregnancy := false, lowerRight := false, fast := false, struck := false,
    loc := false, thinners := false, vomited := false, rand := 7 }

/-- The reading 38.5, as the fraction 77/2 in lowest terms. -/
def temp38_5 : ℚ := ⟨77, 2, by decide, by decide⟩

/-- Scenario: age 0, temperature 38.5. -/
def infantFeverInput : Input := { quietInput with age := 0, temp := temp38_5 }

/-- Scenario: age 70, SpO2 92, chest branch, only "pain worse on inhalation" answered yes. -/
def pleuriticInput : Input :=
  { quietInput with age := 70, spO2 := 92, choice := 1, worseInhale := true }

/-- Scenario: age 30, all vitals skipped, head branch, head not struck. -/
def headQuietInput : Input := { quietInput with choice := 3 }

/-- Scenario: age 80, SpO2 93, BP 230, temperature 39: the three vitals rules fire. -/
def vitalsAllInput : Input := { quietInput with age := 80, spO2 := 93, sysBP := 230, temp := 39 }

/-- Scenario: a child of 8 with SpO2 93 and a BP reading. -/
def childInput : Input := { quietInput with age := 8, spO2 := 93, sysBP := 60 }

/-- A patient record that is already at ORANGE with a note. -/
def orangePatient : Patient :=
  { fullName := "A Patient", patientID := 1001, age := 30, gender := 'F',
    code := .ORANGE_MAJOR, clinicalNotes := "Earlier note. " }

/-- The emergency conditions of the symptom trees, as the specification lists them. -/
def treeEmergencyCondition (inp : Input) (age : Int) : Prop :=
  (inp.choice = 1 ∧ inp.cold = true) ∨
  (inp.choice = 2 ∧ age > 50 ∧ inp.tearing = true) ∨
  (inp.choice = 3 ∧ age > 40 ∧ inp.fast = true) ∨
  (inp.choice = 3 ∧ inp.struck = true ∧ inp.loc = true ∧ (age ≥ 65 ∨ inp.thinners = true))

/-- The patient record at the end of the pleuritic scenario. -/
def pleuriticFinal : Patient :=
  { fullName := "A Patient", patientID := 1001, age := 70, gender := 'M', spO2 := 92,
    temp := 0, sysBP := 0, code := .AMBER_HOSPITAL,
    clinicalNotes := "Hypoxia (91-94%). Pleuritic Pain. ", symptomCategory := 1 }

/-- Everything the pleuritic scenario prints (`rand()` gives 7, so the wait is 67 minutes). -/
def pleuriticOutput : List Output :=
  [.heading "=== NHS DIGITAL TRIAGE KIOSK ===", .heading "--- PATIENT REGISTRATION ---",
   .prompt "Enter Full Name: ", .prompt "Enter Age: ", .prompt "Enter Gender (M/F): ",
   .profileCreated 1001 "A Patient", .heading "[VITALS CHECK]", .prompt "SpO2 % (0 to skip): ",
   .prompt "Systolic BP (0 to skip): ", .prompt "Temp (C) (0 to skip): ", selectPrompt,
   .heading "[ASSESSING CHEST/HEART]", .prompt "Is the patient cold, clammy, or pale?",
   .prompt "Is there heavy pressure/crushing pain?",
   .prompt "Does pain radiate to jaw, neck or left arm?",
   .prompt "Is pain worse when breathing in?",
   .triageResult "A Patient" 70 .AMBER_HOSPITAL "Hypoxia (91-94%). Pleuritic Pain. ",
   .heading "[LOGISTICS ESTIMATE]", .waitMinutes 67]

/-- The scenario of the pleuritic test: age > 12, SpO2 in 91..94, BP and temperature skipped
(0 typed at the prompt; any non-positive reading is skipped the same way), chest branch,
cold/clammy no, crushing no, radiating no, pain worse on inhalation yes. -/
def pleuriticScenario (inp : Input) : Prop :=
  inp.age > 12 ∧ 91 ≤ inp.spO2 ∧ inp.spO2 ≤ 94 ∧ inp.sysBP ≤ 0 ∧ inp.temp ≤ 0 ∧
    inp.choice = 1 ∧ inp.cold = false ∧ inp.crushing = false ∧ inp.radiating = false ∧
    inp.worseInhale = true

instance (inp : Input) : Decidable (pleuriticScenario inp) := by
  unfold pleuriticScenario
  infer_instance

/-- The scenario of the quiet head test: all three vitals skipped, head branch, head not
struck, and age <= 40 or the FAST question answered no. -/
def headQuietScenario (inp : Input) : Prop :=
  inp.spO2 ≤ 0 ∧ inp.sysBP ≤ 0 ∧ inp.temp ≤ 0 ∧ inp.choice = 3 ∧ inp.struck = false ∧
    (inp.age ≤ 40 ∨ inp.fast = false)

instance (inp : Input) : Decidable (headQuietScenario inp) := by
  unfold headQuietScenario
  infer_instance

/-- What a run decides: the reason it exited with, or the code and notes of the record it
returned. -/
def Result.verdict : Result Patient → Sum String (UrgencyCode × String)
  | .exited r _ => .inl r
  | .returned p _ => .inr (p.code, p.clinicalNotes)

/-- Everything printed by the end of a run. -/
def Result.log {α : Type} : Result α → List Output
  | .exited _ out => out
  | .returned _ out => out

/-- Scenario: a woman of 30 on the stomach branch who answers yes to the pregnancy and
lower-right questions. -/
def stomachBothInput : Input :=
  { quietInput with gender := 'F', choice := 2, pregnancy := true, lowerRight := true }

/-- Scenario: age 70 with SpO2 85, BP 60, temperature 39 and a FAST sign on the head branch:
several emergency conditions at once. -/
def manyEmergenciesInput : Input :=
  { quietInput with age := 70, spO2 := 85, sysBP := 60, temp := 39, choice := 3, fast := true }

/-- The codes a completed session can end with: BLUE, YELLOW, AMBER or ORANGE. -/
def UrgencyCode.completedCode (c : UrgencyCode) : Prop :=
  c = .BLUE_PHARMACY ∨ c = .YELLOW_WALK_IN ∨ c = .AMBER_HOSPITAL ∨ c = .ORANGE_MAJOR

instance (c : UrgencyCode) : Decidable c.completedCode := by
  unfold UrgencyCode.completedCode
  infer_instance

/-- What a session has printed when the vitals check reads the SpO2 value: the banner, the
registration dialogue, the vitals heading and the SpO2 prompt. -/
def askedBeforeVitals (inp : Input) : List Output :=
  [.heading "=== NHS DIGITAL TRIAGE KIOSK ===", .heading "--- PATIENT REGISTRATION ---",
   .prompt "Enter Full Name: ", .prompt "Enter Age: ", .prompt "Enter Gender (M/F): ",
   .profileCreated 1001 inp.fullName, .heading "[VITALS CHECK]", .prompt "SpO2 % (0 to skip): "]

/-- What a session has printed when a symptom tree is entered: the vitals dialogue (the BP
prompt only for age > 12) and the symptom menu. -/
def askedBeforeTree (inp : Input) : List Output :=
  askedBeforeVitals inp ++
    (if inp.age > 12 then [.prompt "Systolic BP (0 to skip): "] else []) ++
    [.prompt "Temp (C) (0 to skip): ", selectPrompt]

/-- The emergency of a session in the words of the specification: the dispatch reason of
the first emergency condition in rule order, and exactly what has been printed when it
triggers, which ends with the prompt of the reading or question that triggers it. No
prompt of a later rule or tree is in the list. -/
def emergencyOutcome (inp : Input) : Option (String × List Output) :=
  if inp.spO2 > 0 ∧ inp.spO2 ≤ 90 then
    some ("Severe Hypoxia (SpO2 <= 90%)", askedBeforeVitals inp)
  else if inp.age > 12 ∧ inp.sysBP > 0 ∧ inp.sysBP < 90 then
    some ("Hypotension / Shock (BP < 90)",
      askedBeforeVitals inp ++ [.prompt "Systolic BP (0 to skip): "])
  else if inp.temp > 38 ∧ inp.age = 0 then
    some ("Infant Fever (Sepsis Risk)",
      askedBeforeVitals inp ++ [.prompt "Temp (C) (0 to skip): "])
  else if inp.choice = 1 then
    if inp.cold = true then
      some ("Cardiac Shock Signs",
        askedBeforeTree inp ++
          [.heading "[ASSESSING CHEST/HEART]", .prompt "Is the patient cold, clammy, or pale?"])
    else none
  else if inp.choice = 2 then
    if inp.age > 50 ∧ inp.tearing = true then
      some ("Suspected AAA Rupture",
        askedBeforeTree inp ++
          [.heading "[ASSESSING STOMACH]", .prompt "Is there tearing pain radiating to the back?"])
    else none
  else if inp.choice = 3 then
    if inp.age > 40 ∧ inp.fast = true then
      some ("Stroke (FAST Positive)",
        askedBeforeTree inp ++
          [.heading "[ASSESSING HEAD/NEURO]",
           .prompt "Any facial drooping, arm weakness, or slurred speech?"])
    else if inp.struck = true ∧ inp.loc = true ∧ inp.age ≥ 65 then
      some ("Head Injury + Elderly (Bleed Risk)",
        askedBeforeTree inp ++ [.heading "[ASSESSING HEAD/NEURO]"] ++
          (if inp.age > 40 then [.prompt "Any facial drooping, arm weakness, or slurred speech?"]
            else []) ++
          [.prompt "Did they hit their head?", .prompt "Any loss of consciousness?"])
    else if inp.struck = true ∧ inp.loc = true ∧ inp.thinners = true then
      some ("Head Injury + Anticoagulants",
        askedBeforeTree inp ++ [.heading "[ASSESSING HEAD/NEURO]"] ++
          (if inp.age > 40 then [.prompt "Any facial drooping, arm weakness, or slurred speech?"]
            else []) ++
          [.prompt "Did they hit their head?", .prompt "Any loss of consciousness?",
           .prompt "Are they on blood thinners?"])
    else none
  else none

/-- Scenario: age 45 on the chest branch, cold and clammy, with every later chest answer
yes as well. -/
def coldChestInput : Input :=
  { quietInput with
    age := 45, choice := 1, cold := true, crushing := true, radiating := true,
    worseInhale := true }

/-! ## The stages equal their closed forms -/

theorem registerPatient_spec (inp : Input) (p : Patient) (out : List Output) :
    registerPatient inp p out = .returned (registeredPatient inp p) (out ++ registerLog inp) := by
  simp [registerPatient, bind, Kiosk.bind, cout, pure, registeredPatient, registerLog]

theorem checkVitals_spec (inp : Input) (p : Patient) (out : List Output) :
    checkVitals inp p out =
      Result.stage (vitalsEmergency inp p) (vitalsLog inp p) (vitalsPatient inp p) out := by
  by_cases hA : inp.spO2 > 0 <;> by_cases hB : inp.spO2 ≤ 90 <;> by_cases hC : inp.spO2 ≤ 94 <;>
    by_cases hD : p.age > 12 <;>
    first
    | omega
    | (by_cases hE : inp.sysBP > 0 <;> by_cases hF : inp.sysBP < 90 <;>
        by_cases hG : inp.sysBP > 220 <;> by_cases hH : inp.temp > 38 <;>
        by_cases hI : p.age = 0 <;> by_cases hJ : p.age ≥ 75 <;>
        first
        | omega
        | simp [checkVitals, bind, Kiosk.bind, cout, pure, trigger999, vitalsEmergency, vitalsLog,
            vitalsPatient, Result.stage, UrgencyCode.minIf, noteIf, *])

theorem assessChest_spec (inp : Input) (p : Patient) (out : List Output) :
    assessChest inp p out =
      Result.stage (chestEmergency inp) (chestLog inp) (chestPatient inp p) out := by
  rcases h1 : inp.cold <;> rcases h2 : inp.crushing <;> rcases h3 : inp.radiating <;>
    rcases h4 : inp.worseInhale <;>
    simp [assessChest, ask, bind, Kiosk.bind, cout, pure, trigger999, chestEmergency, chestPatient,
      chestLog, Result.stage, UrgencyCode.minIf, noteIf, *]

theorem assessStomach_spec (inp : Input) (p : Patient) (out : List Output) :
    assessStomach inp p out =
      Result.stage (stomachEmergency inp p) (stomachLog inp p) (stomachPatient inp p) out := by
  by_cases hA : p.age > 50 <;> by_cases hB : p.age ≥ 12 <;> by_cases hC : p.age ≤ 50 <;>
    first
    | omega
    | (by_cases hF : toupper p.gender = 'F' <;> rcases h1 : inp.tearing <;>
        rcases h2 : inp.pregnancy <;> rcases h3 : inp.lowerRight <;>
        simp [assessStomach, ask, bind, Kiosk.bind, cout, pure, trigger999, stomachEmergency,
          stomachPatient, stomachLog, Result.stage, UrgencyCode.minIf, noteIf, *])

set_option maxHeartbeats 2000000 in
theorem assessHead_spec (inp : Input) (p : Patient) (out : List Output) :
    assessHead inp p out =
      Result.stage (headEmergency inp p) (headLog inp p) (headPatient inp p) out := by
  by_cases hA : p.age > 40 <;> by_cases hB : p.age ≥ 65 <;>
    first
    | omega
    | (rcases h1 : inp.fast <;> rcases h2 : inp.struck <;> rcases h3 : inp.loc <;>
        rcases h4 : inp.thinners <;> rcases h5 : inp.vomited <;>
        simp [assessHead, ask, bind, Kiosk.bind, cout, pure, trigger999, headEmergency,
          headPatient, headLog, Result.stage, UrgencyCode.minIf, noteIf, *])

theorem selectSymptom_spec (inp : Input) (p : Patient) (out : List Output) :
    selectSymptom inp p out =
      Result.stage (treeEmergency inp p) (treeLog inp p) (treePatient inp p) out := by
  by_cases h1 : inp.choice = 1
  · simp [selectSymptom, treeEmergency, treeLog, treePatient, h1, assessChest_spec]
  by_cases h2 : inp.choice = 2
  · simp [selectSymptom, treeEmergency, treeLog, treePatient, h1, h2, assessStomach_spec]
  by_cases h3 : inp.choice = 3
  · simp [selectSymptom, treeEmergency, treeLog, treePatient, h1, h2, h3, assessHead_spec]
  simp [selectSymptom, treeEmergency, treeLog, treePatient, h1, h2, h3, Result.stage, pure]

theorem printEstimatedWait_spec (inp : Input) (code : UrgencyCode) (out : List Output) :
    printEstimatedWait inp code out =
      .returned () (out ++ [.heading "[LOGISTICS ESTIMATE]", waitOutput inp code]) := by
  cases code <;>
    simp [printEstimatedWait, bind, Kiosk.bind, cout, waitOutput, UrgencyCode.toInt]

theorem printSafetyNetting_spec (p : Patient) (out : List Output) :
    printSafetyNetting p out = .returned () (out ++ safetyLog p) := by
  by_cases h0 : p.code.toInt ≤ UrgencyCode.AMBER_HOSPITAL.toInt <;>
    by_cases h1 : p.symptomCategory = 1 <;> by_cases h2 : p.symptomCategory = 2 <;>
    by_cases h3 : p.symptomCategory = 3 <;>
    simp [printSafetyNetting, cout, pure, safetyLog, adviceFor, *]

theorem runSession_spec (inp : Input) :
    runSession inp =
      match sessionEmergency inp with
      | some r => .exited r (dialogueLog inp ++ [.emergency999 r])
      | none => .returned (sessionFinal inp)
          (dialogueLog inp ++ resolutionLog inp (sessionFinal inp)) := by
  simp only [runSession, start, bind, Kiosk.bind, cout, registerPatient_spec, checkVitals_spec,
    sessionEmergency, dialogueLog, sessionFinal, sessionVitals, sessionRegistered]
  rcases hv : vitalsEmergency inp (registeredPatient inp {}) with _ | r
  · simp only [Result.stage, selectSymptom_spec]
    rcases ht : treeEmergency inp (vitalsPatient inp (registeredPatient inp {})) with _ | r
    · simp [Result.stage, printEstimatedWait_spec, printSafetyNetting_spec, resolutionLog, pure,
        selectPrompt]
    · simp [Result.stage, selectPrompt]
  · simp [Result.stage]

theorem toupper_eq_F (c : Char) : toupper c = 'F' ↔ c = 'F' ∨ c = 'f' := by
  by_cases h : c.toNat ≥ 97 ∧ c.toNat ≤ 122
  · have hc : c = Char.ofNat c.toNat := (Char.ofNat_toNat c).symm
    have hu : toupper c = Char.ofNat (c.toNat - 32) := by
      simp only [toupper, Char.toUpper]
      rw [if_pos h]
    rw [hu]
    obtain ⟨h1, h2⟩ := h
    generalize c.toNat = n at hc h1 h2
    subst hc
    interval_cases n <;> decide
  · have hu : toupper c = c := by
      simp only [toupper, Char.toUpper]
      rw [if_neg h]
    rw [hu]
    constructor
    · exact Or.inl
    · rintro (h1 | h1)
      · exact h1
      · subst h1
        exact absurd (by decide) h

/-! ## Shared lemmas -/

theorem Result.stage_eq_returned {α : Type} {em : Option String} {log : List Output} {a a' : α}
    {out out' : List Output} (h : Result.stage em log a out = .returned a' out') :
    em = none ∧ a' = a ∧ out' = out ++ log := by
  cases em with
  | none =>
    simp only [Result.stage, Result.returned.injEq] at h
    exact ⟨rfl, h.1.symm, h.2.symm⟩
  | some r => simp [Result.stage] at h

theorem Result.stage_eq_exited {α : Type} {em : Option String} {log : List Output} {a : α}
    {out out' : List Output} {r : String} (h : Result.stage em log a out = .exited r out') :
    em = some r ∧ out' = out ++ log ++ [.emergency999 r] := by
  cases em with
  | none => simp [Result.stage] at h
  | some r' =>
    simp only [Result.stage, Result.exited.injEq] at h
    obtain ⟨h1, h2⟩ := h
    subst h1
    exact ⟨rfl, h2.symm⟩

theorem UrgencyCode.min_toInt_le (a b : UrgencyCode) : (a.min b).toInt ≤ a.toInt := by
  cases a <;> cases b <;> decide

theorem UrgencyCode.min_toInt (a b : UrgencyCode) :
    (a.min b).toInt = Min.min a.toInt b.toInt := by
  cases a <;> cases b <;> decide

theorem UrgencyCode.toInt_le_six (a : UrgencyCode) : a.toInt ≤ 6 := by
  cases a <;> decide

theorem UrgencyCode.toInt_injective {a b : UrgencyCode} (h : a.toInt = b.toInt) : a = b := by
  cases a <;> cases b <;> first | rfl | (exact absurd h (by decide))

theorem UrgencyCode.minIf_toInt_le (c : UrgencyCode) (fired : Prop) [Decidable fired]
    (d : UrgencyCode) : (c.minIf fired d).toInt ≤ c.toInt := by
  unfold UrgencyCode.minIf
  split_ifs
  · exact UrgencyCode.min_toInt_le c d
  · exact le_refl _

theorem vitalsPatient_code_le (inp : Input) (p : Patient) :
    (vitalsPatient inp p).code.toInt ≤ p.code.toInt :=
  le_trans (UrgencyCode.minIf_toInt_le _ _ _)
    (le_trans (UrgencyCode.minIf_toInt_le _ _ _) (UrgencyCode.minIf_toInt_le _ _ _))

theorem chestPatient_code_le (inp : Input) (p : Patient) :
    (chestPatient inp p).code.toInt ≤ p.code.toInt :=
  le_trans (UrgencyCode.minIf_toInt_le _ _ _) (UrgencyCode.minIf_toInt_le _ _ _)

theorem stomachPatient_code_le (inp : Input) (p : Patient) :
    (stomachPatient inp p).code.toInt ≤ p.code.toInt :=
  le_trans (UrgencyCode.minIf_toInt_le _ _ _) (UrgencyCode.minIf_toInt_le _ _ _)

theorem headPatient_code_le (inp : Input) (p : Patient) :
    (headPatient inp p).code.toInt ≤ p.code.toInt :=
  le_trans (UrgencyCode.minIf_toInt_le _ _ _) (UrgencyCode.minIf_toInt_le _ _ _)

theorem treePatient_code_le (inp : Input) (p : Patient) :
    (treePatient inp p).code.toInt ≤ p.code.toInt := by
  simp only [treePatient]
  split_ifs
  · exact chestPatient_code_le inp p
  · exact stomachPatient_code_le inp p
  · exact headPatient_code_le inp p
  · exact le_refl _

/-- A session that returns raised no emergency and returns the closed-form record. -/
theorem runSession_returned {inp : Input} {p' : Patient} {out' : List Output}
    (h : runSession inp = .returned p' out') :
    vitalsEmergency inp (sessionRegistered inp) = none ∧
      treeEmergency inp (sessionVitals inp) = none ∧ p' = sessionFinal inp ∧
      out' = dialogueLog inp ++ resolutionLog inp (sessionFinal inp) := by
  rw [runSession_spec] at h
  simp only [sessionEmergency] at h
  rcases hv : vitalsEmergency inp (sessionRegistered inp) with _ | r
  · rw [hv] at h
    rcases ht : treeEmergency inp (sessionVitals inp) with _ | r
    · rw [ht] at h
      simp only [Result.returned.injEq] at h
      exact ⟨rfl, rfl, h.1.symm, h.2.symm⟩
    · rw [ht] at h
      simp at h
  · rw [hv] at h
    simp at h

/-! ## Claims -/

/-- C1: urgency never de-escalates. For every patient record, readings and answers, each
stage (`checkVitals`, `assessChest`, `assessStomach`, `assessHead`, and the symptom switch
of `start` with its default Other branch) that returns leaves a code whose ordinal is at
most the ordinal before the stage; the Other branch leaves the code unchanged; and in a
whole session that returns the code after registration is BLUE, and the ordinals after
the vitals check and after the symptom stage only go down. -/
theorem urgency_never_deescalates (inp : Input) (p p' : Patient) (out out' : List Output) :
    (checkVitals inp p out = .returned p' out' → p'.code.toInt ≤ p.code.toInt) ∧
    (assessChest inp p out = .returned p' out' → p'.code.toInt ≤ p.code.toInt) ∧
    (assessStomach inp p out = .returned p' out' → p'.code.toInt ≤ p.code.toInt) ∧
    (assessHead inp p out = .returned p' out' → p'.code.toInt ≤ p.code.toInt) ∧
    (selectSymptom inp p out = .returned p' out' → p'.code.toInt ≤ p.code.toInt) ∧
    (inp.choice ≠ 1 → inp.choice ≠ 2 → inp.choice ≠ 3 →
      selectSymptom inp p out = .returned p' out' → p'.code = p.code) ∧
    (runSession inp = .returned p' out' →
      ∃ p0 p1 o0 o1 o2,
        registerPatient inp {} [.heading "=== NHS DIGITAL TRIAGE KIOSK ==="] = .returned p0 o0 ∧
        checkVitals inp p0 o0 = .returned p1 o1 ∧
        selectSymptom inp p1 (o1 ++ [selectPrompt]) = .returned p' o2 ∧
        p0.code = .BLUE_PHARMACY ∧ p1.code.toInt ≤ p0.code.toInt ∧
        p'.code.toInt ≤ p1.code.toInt) := by
  refine ⟨?_, ?_, ?_, ?_, ?_, ?_, ?_⟩
  · intro h
    rw [checkVitals_spec] at h
    obtain ⟨-, rfl, -⟩ := Result.stage_eq_returned h
    exact vitalsPatient_code_le inp p
  · intro h
    rw [assessChest_spec] at h
    obtain ⟨-, rfl, -⟩ := Result.stage_eq_returned h
    exact chestPatient_code_le inp p
  · intro h
    rw [assessStomach_spec] at h
    obtain ⟨-, rfl, -⟩ := Result.stage_eq_returned h
    exact stomachPatient_code_le inp p
  · intro h
    rw [assessHead_spec] at h
    obtain ⟨-, rfl, -⟩ := Result.stage_eq_returned h
    exact headPatient_code_le inp p
  · intro h
    rw [selectSymptom_spec] at h
    obtain ⟨-, rfl, -⟩ := Result.stage_eq_returned h
    exact treePatient_code_le inp p
  · intro h1 h2 h3 h
    rw [selectSymptom_spec] at h
    obtain ⟨-, rfl, -⟩ := Result.stage_eq_returned h
    simp [treePatient, h1, h2, h3]
  · intro h
    obtain ⟨hv, ht, rfl, -⟩ := runSession_returned h
    refine ⟨sessionRegistered inp, sessionVitals inp, _,
      [.heading "=== NHS DIGITAL TRIAGE KIOSK ==="] ++ registerLog inp ++
        vitalsLog inp (sessionRegistered inp),
      [.heading "=== NHS DIGITAL TRIAGE KIOSK ==="] ++ registerLog inp ++
        vitalsLog inp (sessionRegistered inp) ++ [selectPrompt] ++ treeLog inp (sessionVitals inp),
      registerPatient_spec _ _ _, ?_, ?_,
      rfl, vitalsPatient_code_le inp _, treePatient_code_le inp _⟩
    · rw [checkVitals_spec, hv]
      rfl
    · rw [selectSymptom_spec, ht]
      rfl

/-- Witness for C1: on a patient already at ORANGE, the vitals check with SpO2 92 (whose
rule proposes AMBER) returns and the code stays ORANGE. -/
theorem urgency_never_deescalates_witness :
    checkVitals pleuriticInput orangePatient [] =
        .returned
          { orangePatient with
            spO2 := 92, sysBP := 0, temp := 0,
            clinicalNotes := "Earlier note. Hypoxia (91-94%). " }
          [.heading "[VITALS CHECK]", .prompt "SpO2 % (0 to skip): ",
           .prompt "Systolic BP (0 to skip): ", .prompt "Temp (C) (0 to skip): "] ∧
      UrgencyCode.ORANGE_MAJOR.toInt ≤ orangePatient.code.toInt :=
  ⟨by rfl,
    (urgency_never_deescalates pleuriticInput orangePatient
      { orangePatient with
        spO2 := 92, sysBP := 0, temp := 0,
        clinicalNotes := "Earlier note. Hypoxia (91-94%). " }
      []
      [.heading "[VITALS CHECK]", .prompt "SpO2 % (0 to skip): ",
       .prompt "Systolic BP (0 to skip): ", .prompt "Temp (C) (0 to skip): "]).1 (by rfl)⟩

/-! ## What a session prints before the result -/

theorem vitalsLog_all (inp : Input) (p : Patient) :
    (vitalsLog inp p).all Output.isDialogue = true := by
  unfold vitalsLog
  split_ifs <;> rfl

theorem chestLog_all (inp : Input) : (chestLog inp).all Output.isDialogue = true := by
  unfold chestLog
  split_ifs <;> rfl

theorem stomachLog_all (inp : Input) (p : Patient) :
    (stomachLog inp p).all Output.isDialogue = true := by
  unfold stomachLog
  split_ifs <;> rfl

theorem headLog_all (inp : Input) (p : Patient) :
    (headLog inp p).all Output.isDialogue = true := by
  unfold headLog
  split_ifs <;> rfl

theorem treeLog_all (inp : Input) (p : Patient) :
    (treeLog inp p).all Output.isDialogue = true := by
  unfold treeLog
  split_ifs
  · exact chestLog_all inp
  · exact stomachLog_all inp p
  · exact headLog_all inp p
  · rfl

/-- Every line a session prints before it exits or reaches the final result is dialogue
output: a heading, a prompt or the registration line. -/
theorem dialogueLog_isDialogue (inp : Input) : ∀ e ∈ dialogueLog inp, e.isDialogue = true := by
  have h : (dialogueLog inp).all Output.isDialogue = true := by
    unfold dialogueLog
    rcases vitalsEmergency inp (sessionRegistered inp) with _ | r
    · simp only [List.all_append, vitalsLog_all, treeLog_all, Bool.and_true]
      rfl
    · simp only [List.all_append, vitalsLog_all, Bool.and_true]
      rfl
  exact List.all_eq_true.mp h

/-- A session that exits raised the emergency of the closed form, and its output is the
dialogue log followed by the 999 block. -/
theorem runSession_exited {inp : Input} {r : String} {out' : List Output}
    (h : runSession inp = .exited r out') :
    sessionEmergency inp = some r ∧ out' = dialogueLog inp ++ [.emergency999 r] := by
  rw [runSession_spec] at h
  rcases he : sessionEmergency inp with _ | r'
  · rw [he] at h
    simp at h
  · rw [he] at h
    simp only [Result.exited.injEq] at h
    obtain ⟨h1, h2⟩ := h
    subst h1
    exact ⟨rfl, h2.symm⟩

/-! ## When a session exits -/

theorem vitalsEmergency_eq_none_iff (inp : Input) (p : Patient) :
    vitalsEmergency inp p = none ↔
      ¬ vitalsEmergencyCondition p.age inp.spO2 inp.sysBP inp.temp := by
  simp only [vitalsEmergency, vitalsEmergencyCondition]
  split_ifs <;> simp [*]

theorem treeEmergency_eq_none_iff (inp : Input) (p : Patient) :
    treeEmergency inp p = none ↔ ¬ treeEmergencyCondition inp p.age := by
  simp only [treeEmergency, chestEmergency, stomachEmergency, headEmergency,
    treeEmergencyCondition]
  by_cases h1 : inp.choice = 1
  · simp [h1]
  by_cases h2 : inp.choice = 2
  · simp [h2]
  by_cases h3 : inp.choice = 3
  · simp only [h3, if_neg (show ¬ (3 : Int) = 1 by decide), if_neg (show ¬ (3 : Int) = 2 by decide)]
    split_ifs <;> simp_all
  · simp [h1, h2, h3]

theorem emergencyCondition_iff (inp : Input) :
    emergencyCondition inp ↔
      vitalsEmergencyCondition inp.age inp.spO2 inp.sysBP inp.temp ∨
        treeEmergencyCondition inp inp.age := by
  simp only [emergencyCondition, vitalsEmergencyCondition, treeEmergencyCondition, or_assoc]

/-- A session raises no emergency exactly when none of the listed emergency conditions
holds on its input. -/
theorem sessionEmergency_eq_none_iff (inp : Input) :
    sessionEmergency inp = none ↔ ¬ emergencyCondition inp := by
  have hv : vitalsEmergency inp (sessionRegistered inp) = none ↔
      ¬ vitalsEmergencyCondition inp.age inp.spO2 inp.sysBP inp.temp :=
    vitalsEmergency_eq_none_iff inp (sessionRegistered inp)
  have ht : treeEmergency inp (sessionVitals inp) = none ↔ ¬ treeEmergencyCondition inp inp.age :=
    treeEmergency_eq_none_iff inp (sessionVitals inp)
  rw [emergencyCondition_iff, not_or]
  unfold sessionEmergency
  rcases he : vitalsEmergency inp (sessionRegistered inp) with _ | r
  · rw [he] at hv
    exact ⟨fun h => ⟨hv.mp rfl, ht.mp h⟩, fun h => ht.mpr h.2⟩
  · rw [he] at hv
    constructor
    · intro h
      exact absurd h (by simp)
    · intro h
      exact absurd (hv.mpr h.1) (by simp)

theorem vitalsLog_no_select (inp : Input) (p : Patient) : selectPrompt ∉ vitalsLog inp p := by
  unfold vitalsLog
  split_ifs <;> decide

/-- When the vitals check raises an emergency the symptom menu is never printed. -/
theorem dialogueLog_no_select (inp : Input)
    (h : vitalsEmergencyCondition inp.age inp.spO2 inp.sysBP inp.temp) :
    selectPrompt ∉ dialogueLog inp := by
  have hv : vitalsEmergency inp (sessionRegistered inp) ≠ none := fun hn =>
    (vitalsEmergency_eq_none_iff inp (sessionRegistered inp)).mp hn h
  unfold dialogueLog
  rcases he : vitalsEmergency inp (sessionRegistered inp) with _ | r
  · exact absurd he hv
  · simp only [List.append_nil, List.mem_append, not_or]
    exact ⟨⟨by decide, by simp [registerLog, selectPrompt]⟩, vitalsLog_no_select _ _⟩

/-- The emergency outcome in the words of the specification is what the session does: the
same reason, and the same output before the 999 block. -/
theorem emergencyOutcome_eq (inp : Input) :
    emergencyOutcome inp = (sessionEmergency inp).map (fun r => (r, dialogueLog inp)) := by
  have hreg : (sessionRegistered inp).age = inp.age := rfl
  have hvit : (sessionVitals inp).age = inp.age := rfl
  by_cases h1 : inp.spO2 > 0 ∧ inp.spO2 ≤ 90
  · simp [emergencyOutcome, sessionEmergency, dialogueLog, vitalsEmergency, vitalsLog,
      registerLog, askedBeforeVitals, currentIDCounter, h1]
  by_cases h2 : inp.age > 12 ∧ inp.sysBP > 0 ∧ inp.sysBP < 90
  · simp [emergencyOutcome, sessionEmergency, dialogueLog, vitalsEmergency, vitalsLog,
      registerLog, askedBeforeVitals, currentIDCounter, hreg, h1, h2, h2.1]
  by_cases h3 : inp.temp > 38 ∧ inp.age = 0
  · have h12 : ¬ inp.age > 12 := by omega
    simp [emergencyOutcome, sessionEmergency, dialogueLog, vitalsEmergency, vitalsLog,
      registerLog, askedBeforeVitals, currentIDCounter, hreg, h1, h2, h3, h12]
  have hv : vitalsEmergency inp (sessionRegistered inp) = none := by
    simp only [vitalsEmergency, hreg, if_neg h1, if_neg h2, if_neg h3]
  have hd : dialogueLog inp = askedBeforeTree inp ++ treeLog inp (sessionVitals inp) := by
    simp only [dialogueLog, hv, vitalsLog, hreg, if_neg h1, if_neg h2, askedBeforeTree,
      askedBeforeVitals, registerLog, currentIDCounter]
    simp
  have hs : sessionEmergency inp = treeEmergency inp (sessionVitals inp) := by
    simp only [sessionEmergency, hv]
  rw [hs, hd]
  simp only [emergencyOutcome, if_neg h1, if_neg h2, if_neg h3, treeEmergency, treeLog]
  by_cases c1 : inp.choice = 1
  · simp only [if_pos c1, chestEmergency, chestLog]
    rcases hc : inp.cold <;> simp
  rw [if_neg c1, if_neg c1, if_neg c1]
  by_cases c2 : inp.choice = 2
  · simp only [if_pos c2, stomachEmergency, stomachLog, hvit]
    by_cases ha : inp.age > 50 <;> rcases ht : inp.tearing <;> simp [ha]
  rw [if_neg c2, if_neg c2, if_neg c2]
  by_cases c3 : inp.choice = 3
  · simp only [if_pos c3, headEmergency, headLog, hvit]
    by_cases ha : inp.age > 40 <;> by_cases hb : inp.age ≥ 65 <;>
      first
      | omega
      | (rcases hf : inp.fast <;> rcases hk : inp.struck <;> rcases hl : inp.loc <;>
          rcases ht : inp.thinners <;> simp [ha, hb])
  · simp only [if_neg c3, Option.map_none']

theorem Output.isResolution_of_isDialogue {e : Output} (h : e.isDialogue = true) :
    e.isResolution = false := by
  cases e <;> simp [Output.isDialogue] at h <;> rfl

/-- C2: if any emergency condition holds on the session input (SpO2 in 1..90; age > 12 and
systolic BP in 1..89; temperature > 38.0 and age 0; chest and cold/clammy; stomach, age > 50
and tearing pain; head, age > 40 and FAST sign; head struck with loss of consciousness and
age >= 65 or anticoagulants), the session exits through `trigger999`: the 999 block is the
last thing printed, everything before it is dialogue (headings and prompts), and none of
the resolution output (result block with clinical notes, wait time, safety netting) is
printed. If the condition is one of the vitals conditions the symptom menu is never printed;
for age 0 with temperature above 38.0 and no severe hypoxia the reason is the infant-fever
one. No later rule, tree or resolution step runs: the output is exactly the dialogue up to
and including the prompt of the reading or question of the first emergency rule in rule
order, followed by the 999 block with that rule's reason, so no question of a later rule
or tree is asked. -/
theorem emergency_dispatches_and_halts (inp : Input) (h : emergencyCondition inp) :
    ∃ reason out, runSession inp = .exited reason out ∧
      out.getLast? = some (.emergency999 reason) ∧
      (∀ e ∈ out, e.isResolution = false) ∧
      (∀ e ∈ out.dropLast, e.isDialogue = true) ∧
      (vitalsEmergencyCondition inp.age inp.spO2 inp.sysBP inp.temp → selectPrompt ∉ out) ∧
      (inp.age = 0 → inp.temp > 38 → ¬ (inp.spO2 > 0 ∧ inp.spO2 ≤ 90) →
        reason = "Infant Fever (Sepsis Risk)") ∧
      (∃ asked, emergencyOutcome inp = some (reason, asked) ∧
        out = asked ++ [.emergency999 reason]) := by
  rcases he : sessionEmergency inp with _ | r
  · exact absurd h ((sessionEmergency_eq_none_iff inp).mp he)
  · refine ⟨r, dialogueLog inp ++ [.emergency999 r], ?_, ?_, ?_, ?_, ?_, ?_, ?_⟩
    · rw [runSession_spec, he]
    · simp
    · intro e hm
      rcases List.mem_append.mp hm with hm | hm
      · exact Output.isResolution_of_isDialogue (dialogueLog_isDialogue inp e hm)
      · rw [List.mem_singleton.mp hm]
        rfl
    · simpa using dialogueLog_isDialogue inp
    · intro hv hm
      rcases List.mem_append.mp hm with hm | hm
      · exact dialogueLog_no_select inp hv hm
      · simp [selectPrompt] at hm
    · intro ha ht hs
      have hr : vitalsEmergency inp (sessionRegistered inp) = some "Infant Fever (Sepsis Risk)" := by
        have hage : (sessionRegistered inp).age = 0 := ha
        have h12 : ¬ (0 : Int) > 12 := by decide
        simp only [vitalsEmergency, hage, if_neg hs, h12, false_and, if_false, ht, true_and,
          if_true]
      simp only [sessionEmergency, hr] at he
      exact (Option.some.inj he).symm
    · refine ⟨dialogueLog inp, ?_, rfl⟩
      rw [emergencyOutcome_eq, he]
      rfl

/-- Witness for C2: age 0 with temperature 38.5 satisfies the infant-fever condition and
the session exits in the vitals check; age 45 on the chest branch, cold and clammy,
satisfies the chest condition and the session exits right after the cold/clammy question
although every later chest answer is yes. -/
theorem emergency_dispatches_and_halts_witness :
    (emergencyCondition infantFeverInput ∧
      ∃ reason out, runSession infantFeverInput = .exited reason out ∧
        out.getLast? = some (.emergency999 reason) ∧
        (∀ e ∈ out, e.isResolution = false) ∧
        (∀ e ∈ out.dropLast, e.isDialogue = true) ∧
        (vitalsEmergencyCondition infantFeverInput.age infantFeverInput.spO2
          infantFeverInput.sysBP infantFeverInput.temp → selectPrompt ∉ out) ∧
        (infantFeverInput.age = 0 → infantFeverInput.temp > 38 →
          ¬ (infantFeverInput.spO2 > 0 ∧ infantFeverInput.spO2 ≤ 90) →
          reason = "Infant Fever (Sepsis Risk)") ∧
        (∃ asked, emergencyOutcome infantFeverInput = some (reason, asked) ∧
          out = asked ++ [.emergency999 reason])) ∧
    (emergencyCondition coldChestInput ∧
      emergencyOutcome coldChestInput =
        some ("Cardiac Shock Signs",
          [.heading "=== NHS DIGITAL TRIAGE KIOSK ===", .heading "--- PATIENT REGISTRATION ---",
           .prompt "Enter Full Name: ", .prompt "Enter Age: ", .prompt "Enter Gender (M/F): ",
           .profileCreated 1001 "A Patient", .heading "[VITALS CHECK]",
           .prompt "SpO2 % (0 to skip): ", .prompt "Systolic BP (0 to skip): ",
           .prompt "Temp (C) (0 to skip): ", selectPrompt, .heading "[ASSESSING CHEST/HEART]",
           .prompt "Is the patient cold, clammy, or pale?"]) ∧
      ∃ reason out, runSession coldChestInput = .exited reason out ∧
        ∃ asked, emergencyOutcome coldChestInput = some (reason, asked) ∧
          out = asked ++ [.emergency999 reason]) :=
  ⟨⟨by decide, emergency_dispatches_and_halts infantFeverInput (by decide)⟩,
    ⟨by decide, by decide,
      (emergency_dispatches_and_halts coldChestInput (by decide)).imp fun _ hr =>
        hr.imp fun _ ho => ⟨ho.1, ho.2.2.2.2.2.2⟩⟩⟩

/-- The cold-and-clammy chest scenario run on the code: the session exits right after the
cold/clammy question; the crushing, radiating and inhalation questions are never asked. -/
theorem coldChest_trace : runSession coldChestInput = .exited "Cardiac Shock Signs"
    [.heading "=== NHS DIGITAL TRIAGE KIOSK ===", .heading "--- PATIENT REGISTRATION ---",
     .prompt "Enter Full Name: ", .prompt "Enter Age: ", .prompt "Enter Gender (M/F): ",
     .profileCreated 1001 "A Patient", .heading "[VITALS CHECK]", .prompt "SpO2 % (0 to skip): ",
     .prompt "Systolic BP (0 to skip): ", .prompt "Temp (C) (0 to skip): ", selectPrompt,
     .heading "[ASSESSING CHEST/HEART]", .prompt "Is the patient cold, clammy, or pale?",
     .emergency999 "Cardiac Shock Signs"] := by rfl

/-- The scenario age 0, temperature 38.5, run on the code: it exits in the vitals check
with the infant-fever reason, before the symptom menu. -/
theorem infantFever_trace : runSession infantFeverInput = .exited "Infant Fever (Sepsis Risk)"
    [.heading "=== NHS DIGITAL TRIAGE KIOSK ===", .heading "--- PATIENT REGISTRATION ---",
     .prompt "Enter Full Name: ", .prompt "Enter Age: ", .prompt "Enter Gender (M/F): ",
     .profileCreated 1001 "A Patient", .heading "[VITALS CHECK]", .prompt "SpO2 % (0 to skip): ",
     .prompt "Temp (C) (0 to skip): ", .emergency999 "Infant Fever (Sepsis Risk)"] := by rfl

/-- The reading `temp38_5` is the number 38.5. -/
theorem temp38_5_eq : temp38_5 = 77 / 2 := by
  unfold temp38_5
  rw [Rat.mk_eq_divInt, Rat.divInt_eq_div]
  norm_num

/-- C5: the escalation operation `min` on urgency codes returns the more urgent of its two
arguments for all 36 pairs (it is one of the two, and its ordinal is the smaller of the two
ordinals RED=1 < ORANGE=2 < AMBER=3 < YELLOW=4 < GREEN=5 < BLUE=6), and it is commutative,
associative and idempotent over the six codes. -/
theorem min_more_urgent_comm_assoc_idem :
    (UrgencyCode.RED_CRITICAL.toInt = 1 ∧ UrgencyCode.ORANGE_MAJOR.toInt = 2 ∧
      UrgencyCode.AMBER_HOSPITAL.toInt = 3 ∧ UrgencyCode.YELLOW_WALK_IN.toInt = 4 ∧
      UrgencyCode.GREEN_GP.toInt = 5 ∧ UrgencyCode.BLUE_PHARMACY.toInt = 6) ∧
    (∀ a b : UrgencyCode, (a.min b = a ∨ a.min b = b) ∧
      (a.min b).toInt = Min.min a.toInt b.toInt ∧
      (a.min b).toInt ≤ a.toInt ∧ (a.min b).toInt ≤ b.toInt) ∧
    (∀ a b : UrgencyCode, a.min b = b.min a) ∧
    (∀ a b c : UrgencyCode, (a.min b).min c = a.min (b.min c)) ∧
    (∀ a : UrgencyCode, a.min a = a) := by
  refine ⟨by decide, ?_, ?_, ?_, ?_⟩
  · intro a b
    cases a <;> cases b <;> decide
  · intro a b
    cases a <;> cases b <;> decide
  · intro a b c
    cases a <;> cases b <;> cases c <;> decide
  · intro a
    cases a <;> decide

/-! ## Final code and fired rules -/

theorem mostUrgentOrdinal_le_six (l : List UrgencyCode) : mostUrgentOrdinal l ≤ 6 := by
  induction l with
  | nil => exact le_refl _
  | cons a l ih => exact le_trans (min_le_right _ _) ih

theorem mostUrgentOrdinal_append (l₁ l₂ : List UrgencyCode) :
    mostUrgentOrdinal (l₁ ++ l₂) = Min.min (mostUrgentOrdinal l₁) (mostUrgentOrdinal l₂) := by
  induction l₁ with
  | nil =>
    have h := mostUrgentOrdinal_le_six l₂
    simp only [List.nil_append]
    exact (min_eq_right h).symm
  | cons a l ih =>
    have e1 : mostUrgentOrdinal (a :: l ++ l₂) = Min.min a.toInt (mostUrgentOrdinal (l ++ l₂)) := rfl
    have e2 : mostUrgentOrdinal (a :: l) = Min.min a.toInt (mostUrgentOrdinal l) := rfl
    rw [e1, e2, ih, min_assoc]

theorem UrgencyCode.minIf_toInt (c : UrgencyCode) (fired : Prop) [Decidable fired]
    (d : UrgencyCode) :
    (c.minIf fired d).toInt =
      Min.min c.toInt (mostUrgentOrdinal (if fired then [d] else [])) := by
  have hc := UrgencyCode.toInt_le_six c
  have hd := UrgencyCode.toInt_le_six d
  unfold UrgencyCode.minIf
  split_ifs
  · have e : mostUrgentOrdinal [d] = Min.min d.toInt 6 := rfl
    rw [UrgencyCode.min_toInt, e, min_eq_left hd]
  · have e : mostUrgentOrdinal [] = 6 := rfl
    rw [e, min_eq_left hc]

theorem mostUrgentOrdinal_ite_congr {a b : Prop} [Decidable a] [Decidable b] (h : a ↔ b)
    (d : UrgencyCode) :
    mostUrgentOrdinal (if a then [d] else []) = mostUrgentOrdinal (if b then [d] else []) := by
  by_cases hb : b
  · rw [if_pos hb, if_pos (h.mpr hb)]
  · rw [if_neg hb, if_neg (fun ha => hb (h.mp ha))]

theorem mostUrgentOrdinal_min_six (l : List UrgencyCode) :
    Min.min 6 (mostUrgentOrdinal l) = mostUrgentOrdinal l :=
  min_eq_right (mostUrgentOrdinal_le_six l)

theorem min_mostUrgentOrdinal_six (x : Int) (l : List UrgencyCode) :
    Min.min (Min.min x (mostUrgentOrdinal l)) 6 = Min.min x (mostUrgentOrdinal l) :=
  min_eq_left (le_trans (min_le_right _ _) (mostUrgentOrdinal_le_six l))

/-- C3: in every session that completes without an emergency (the patient starts at BLUE),
the ordinal of the final code is the smallest ordinal among the codes proposed by the rules
that fired (AMBER for SpO2 91..94, ORANGE for age > 12 with BP > 220, AMBER for temperature
above 38.0 with age >= 75, ORANGE for crushing or radiating chest pain, YELLOW for pleuritic
pain, AMBER for pregnancy risk, AMBER for lower-right pain, ORANGE for concussion with loss
of consciousness, AMBER for head injury with vomiting), and the final code is BLUE when no
rule fired. -/
theorem final_code_is_most_urgent_proposal (inp : Input) (p' : Patient) (out' : List Output)
    (h : runSession inp = .returned p' out') :
    p'.code.toInt = mostUrgentOrdinal (firedProposals inp) ∧
      (firedProposals inp = [] → p'.code = .BLUE_PHARMACY) := by
  obtain ⟨hv, ht, rfl, -⟩ := runSession_returned h
  have hmain : (sessionFinal inp).code.toInt = mostUrgentOrdinal (firedProposals inp) := by
    have hnv := (vitalsEmergency_eq_none_iff inp (sessionRegistered inp)).mp hv
    have hs : ¬ (inp.spO2 > 0 ∧ inp.spO2 ≤ 90) := fun hc => hnv (Or.inl hc)
    have e1 : (inp.spO2 > 0 ∧ inp.spO2 ≤ 94) ↔ (91 ≤ inp.spO2 ∧ inp.spO2 ≤ 94) := by
      constructor <;> intro <;> omega
    have hvit : (sessionVitals inp).code.toInt =
        Min.min (Min.min (Min.min 6
          (mostUrgentOrdinal (if 91 ≤ inp.spO2 ∧ inp.spO2 ≤ 94 then [.AMBER_HOSPITAL] else [])))
          (mostUrgentOrdinal (if inp.age > 12 ∧ inp.sysBP > 220 then [.ORANGE_MAJOR] else [])))
          (mostUrgentOrdinal (if inp.temp > 38 ∧ inp.age ≥ 75 then [.AMBER_HOSPITAL] else [])) := by
      show (((UrgencyCode.BLUE_PHARMACY.minIf (inp.spO2 > 0 ∧ inp.spO2 ≤ 94) .AMBER_HOSPITAL).minIf
        (inp.age > 12 ∧ inp.sysBP > 220) .ORANGE_MAJOR).minIf
        (inp.temp > 38 ∧ inp.age ≥ 75) .AMBER_HOSPITAL).toInt = _
      rw [UrgencyCode.minIf_toInt, UrgencyCode.minIf_toInt, UrgencyCode.minIf_toInt,
        mostUrgentOrdinal_ite_congr e1]
      rfl
    have m6 : mostUrgentOrdinal [] = 6 := rfl
    have hfin : (sessionFinal inp).code = (treePatient inp (sessionVitals inp)).code := rfl
    rw [hfin]
    have n12 : ¬ ((1 : Int) = 2) := by decide
    have n13 : ¬ ((1 : Int) = 3) := by decide
    have n21 : ¬ ((2 : Int) = 1) := by decide
    have n23 : ¬ ((2 : Int) = 3) := by decide
    have n31 : ¬ ((3 : Int) = 1) := by decide
    have n32 : ¬ ((3 : Int) = 2) := by decide
    by_cases h1 : inp.choice = 1
    · have ht1 : (treePatient inp (sessionVitals inp)).code =
          ((sessionVitals inp).code.minIf (inp.crushing = true ∨ inp.radiating = true)
            .ORANGE_MAJOR).minIf
            (¬ (inp.crushing = true ∨ inp.radiating = true) ∧ inp.worseInhale = true)
            .YELLOW_WALK_IN := by
        simp only [treePatient, if_pos h1]
        rfl
      rw [ht1, UrgencyCode.minIf_toInt, UrgencyCode.minIf_toInt, hvit]
      simp only [firedProposals, mostUrgentOrdinal_append, h1, true_and, n12, n13, false_and,
        if_false, m6, mostUrgentOrdinal_min_six, min_mostUrgentOrdinal_six]
    by_cases h2 : inp.choice = 2
    · have ht2 : (treePatient inp (sessionVitals inp)).code =
          ((sessionVitals inp).code.minIf
            ((toupper inp.gender = 'F' ∧ inp.age ≥ 12 ∧ inp.age ≤ 50) ∧ inp.pregnancy = true)
            .AMBER_HOSPITAL).minIf (inp.lowerRight = true) .AMBER_HOSPITAL := by
        simp only [treePatient, if_neg h1, if_pos h2]
        rfl
      have e2 : ((toupper inp.gender = 'F' ∧ inp.age ≥ 12 ∧ inp.age ≤ 50) ∧
          inp.pregnancy = true) ↔
          ((inp.gender = 'F' ∨ inp.gender = 'f') ∧ 12 ≤ inp.age ∧ inp.age ≤ 50 ∧
            inp.pregnancy = true) := by
        rw [toupper_eq_F, and_assoc, and_assoc]
      rw [ht2, UrgencyCode.minIf_toInt, UrgencyCode.minIf_toInt, hvit,
        mostUrgentOrdinal_ite_congr e2]
      simp only [firedProposals, mostUrgentOrdinal_append, h2, true_and, n21, n23, false_and,
        if_false, m6, mostUrgentOrdinal_min_six, min_mostUrgentOrdinal_six]
    by_cases h3 : inp.choice = 3
    · have ht3 : (treePatient inp (sessionVitals inp)).code =
          ((sessionVitals inp).code.minIf (inp.struck = true ∧ inp.loc = true)
            .ORANGE_MAJOR).minIf (inp.struck = true ∧ inp.vomited = true) .AMBER_HOSPITAL := by
        simp only [treePatient, if_neg h1, if_neg h2, if_pos h3]
        rfl
      rw [ht3, UrgencyCode.minIf_toInt, UrgencyCode.minIf_toInt, hvit]
      simp only [firedProposals, mostUrgentOrdinal_append, h3, true_and, n31, n32, false_and,
        if_false, m6, mostUrgentOrdinal_min_six, min_mostUrgentOrdinal_six]
    · have ht4 : (treePatient inp (sessionVitals inp)).code = (sessionVitals inp).code := by
        simp only [treePatient, if_neg h1, if_neg h2, if_neg h3]
      rw [ht4, hvit]
      simp only [firedProposals, mostUrgentOrdinal_append, h1, h2, h3, false_and,
        if_false, m6, mostUrgentOrdinal_min_six, min_mostUrgentOrdinal_six]
  exact ⟨hmain, fun hn => UrgencyCode.toInt_injective (by rw [hmain, hn]; rfl)⟩

/-- Witness for C3: the pleuritic scenario completes; the hypoxia rule (AMBER) and the
pleuritic rule (YELLOW) fired and the final code is AMBER, ordinal 3. -/
theorem final_code_is_most_urgent_proposal_witness :
    runSession pleuriticInput = .returned pleuriticFinal pleuriticOutput ∧
      firedProposals pleuriticInput = [.AMBER_HOSPITAL, .YELLOW_WALK_IN] ∧
      pleuriticFinal.code.toInt = mostUrgentOrdinal [.AMBER_HOSPITAL, .YELLOW_WALK_IN] ∧
      mostUrgentOrdinal [.AMBER_HOSPITAL, .YELLOW_WALK_IN] = 3 :=
  ⟨by rfl, by decide,
    (final_code_is_most_urgent_proposal pleuriticInput pleuriticFinal pleuriticOutput
      (by rfl)).1,
    by decide⟩

/-! ## Safety netting -/

/-- C4: `printSafetyNetting` prints the safety-netting block exactly when the code is
strictly less urgent than AMBER, that is for YELLOW, GREEN and BLUE and never for RED,
ORANGE or AMBER (then it prints nothing); the block printed is the chest block for
category 1, the stomach block for category 2, the head block for category 3 and the
default block for every other category value, and the four blocks are different texts. -/
theorem safety_netting_iff_below_amber (p : Patient) (out : List Output) :
    (UrgencyCode.AMBER_HOSPITAL.toInt < p.code.toInt ↔
      p.code = .YELLOW_WALK_IN ∨ p.code = .GREEN_GP ∨ p.code = .BLUE_PHARMACY) ∧
    (¬ UrgencyCode.AMBER_HOSPITAL.toInt < p.code.toInt ↔
      p.code = .RED_CRITICAL ∨ p.code = .ORANGE_MAJOR ∨ p.code = .AMBER_HOSPITAL) ∧
    (¬ UrgencyCode.AMBER_HOSPITAL.toInt < p.code.toInt →
      printSafetyNetting p out = .returned () out) ∧
    (UrgencyCode.AMBER_HOSPITAL.toInt < p.code.toInt →
      (p.symptomCategory = 1 →
        printSafetyNetting p out = .returned () (out ++ [.safetyNetting chestAdvice])) ∧
      (p.symptomCategory = 2 →
        printSafetyNetting p out = .returned () (out ++ [.safetyNetting stomachAdvice])) ∧
      (p.symptomCategory = 3 →
        printSafetyNetting p out = .returned () (out ++ [.safetyNetting headAdvice])) ∧
      (p.symptomCategory ≠ 1 → p.symptomCategory ≠ 2 → p.symptomCategory ≠ 3 →
        printSafetyNetting p out = .returned () (out ++ [.safetyNetting defaultAdvice]))) ∧
    [chestAdvice, stomachAdvice, headAdvice, defaultAdvice].Nodup := by
  refine ⟨?_, ?_, ?_, ?_, by decide⟩
  · cases p.code <;> decide
  · cases p.code <;> decide
  · intro h
    rw [printSafetyNetting_spec, safetyLog, if_pos (not_lt.mp h), List.append_nil]
  · intro h
    have hn : ¬ p.code.toInt ≤ UrgencyCode.AMBER_HOSPITAL.toInt := not_le.mpr h
    refine ⟨?_, ?_, ?_, ?_⟩
    · intro hc
      rw [printSafetyNetting_spec, safetyLog, if_neg hn, adviceFor, if_pos hc]
    · intro hc
      have h1 : ¬ p.symptomCategory = 1 := by omega
      rw [printSafetyNetting_spec, safetyLog, if_neg hn, adviceFor, if_neg h1, if_pos hc]
    · intro hc
      have h1 : ¬ p.symptomCategory = 1 := by omega
      have h2 : ¬ p.symptomCategory = 2 := by omega
      rw [printSafetyNetting_spec, safetyLog, if_neg hn, adviceFor, if_neg h1, if_neg h2,
        if_pos hc]
    · intro h1 h2 h3
      rw [printSafetyNetting_spec, safetyLog, if_neg hn, adviceFor, if_neg h1, if_neg h2,
        if_neg h3]

/-- Witness for C4: a YELLOW patient of category 4 (Other) gets the default block, and the
AMBER patient of the pleuritic scenario gets nothing. -/
theorem safety_netting_iff_below_amber_witness :
    UrgencyCode.AMBER_HOSPITAL.toInt <
        ({ pleuriticFinal with code := .YELLOW_WALK_IN, symptomCategory := 4 } : Patient).code.toInt ∧
      printSafetyNetting { pleuriticFinal with code := .YELLOW_WALK_IN, symptomCategory := 4 } [] =
        .returned () [.safetyNetting defaultAdvice] ∧
      ¬ UrgencyCode.AMBER_HOSPITAL.toInt < pleuriticFinal.code.toInt ∧
      printSafetyNetting pleuriticFinal [] = .returned () [] :=
  ⟨by decide,
    (safety_netting_iff_below_amber
      { pleuriticFinal with code := .YELLOW_WALK_IN, symptomCategory := 4 } []).2.2.2.1
      (by decide) |>.2.2.2 (by decide) (by decide) (by decide),
    by decide,
    (safety_netting_iff_below_amber pleuriticFinal []).2.2.1 (by decide)⟩

/-! ## Scenarios of the specification -/

/-- A session on which no emergency condition holds returns the closed-form record after
printing the dialogue and the resolution output. -/
theorem runSession_of_no_emergency {inp : Input} (h : ¬ emergencyCondition inp) :
    runSession inp =
      .returned (sessionFinal inp) (dialogueLog inp ++ resolutionLog inp (sessionFinal inp)) := by
  rw [runSession_spec, (sessionEmergency_eq_none_iff inp).mpr h]

theorem pleuriticScenario_no_emergency {inp : Input} (h : pleuriticScenario inp) :
    ¬ emergencyCondition inp := by
  obtain ⟨h1, h2, h3, h4, h5, h6, h7, -, -, -⟩ := h
  have ht : ¬ inp.temp > 38 := fun hc => by linarith
  unfold emergencyCondition
  rintro (hc | hc | hc | hc | hc | hc | hc)
  · omega
  · omega
  · exact ht hc.1
  · rw [h7] at hc
    exact absurd hc.2 (by decide)
  · omega
  · omega
  · omega

/-- The pleuritic scenario run on the code: final record and everything printed. -/
theorem pleuritic_trace : runSession pleuriticInput = .returned pleuriticFinal pleuriticOutput := by
  rfl

/-- C6 as stated fails: in the scenario age 70, SpO2 92, BP and temperature skipped, chest
branch, only "pain worse on inhalation" answered yes, the session does not end with the
notes holding only the hypoxia note. -/
theorem pleuritic_notes_only_hypoxia_counterexample :
    pleuriticScenario pleuriticInput ∧
      ¬ ∃ p out, runSession pleuriticInput = .returned p out ∧ p.code = .AMBER_HOSPITAL ∧
        p.clinicalNotes = "Hypoxia (91-94%). " := by
  refine ⟨by decide, ?_⟩
  rintro ⟨p, out, h, -, hn⟩
  rw [pleuritic_trace] at h
  simp only [Result.returned.injEq] at h
  rw [← h.1] at hn
  exact absurd hn (by decide)

/-- C6 amended: in every session of the pleuritic scenario (age > 12, SpO2 in 91..94, BP and
temperature skipped, chest branch, cold/clammy no, crushing no, radiating no, pain worse on
inhalation yes) the session completes with final code AMBER (the YELLOW proposal of the
pleuritic rule does not de-escalate it) and the clinical notes are the hypoxia note followed
by the pleuritic note. -/
theorem pleuritic_keeps_amber_and_appends_note (inp : Input) (h : pleuriticScenario inp) :
    ∃ p out, runSession inp = .returned p out ∧ p.code = .AMBER_HOSPITAL ∧
      p.clinicalNotes = "Hypoxia (91-94%). Pleuritic Pain. " := by
  have hrun := runSession_of_no_emergency (pleuriticScenario_no_emergency h)
  obtain ⟨h1, h2, h3, h4, h5, h6, h7, h8, h9, h10⟩ := h
  have ht : ¬ inp.temp > 38 := fun hc => by linarith
  have hs : inp.spO2 > 0 ∧ inp.spO2 ≤ 94 := by omega
  have hb : ¬ inp.sysBP > 220 := by omega
  refine ⟨_, _, hrun, ?_, ?_⟩
  · simp only [sessionFinal, sessionVitals, sessionRegistered, registeredPatient, treePatient,
      vitalsPatient, chestPatient, UrgencyCode.minIf, hs, hb, ht, h6, h8, h9, h10, and_false,
      false_and, if_true, if_false, or_self, not_false_eq_true, and_self, Bool.false_eq_true]
    decide
  · simp [sessionFinal, sessionVitals, sessionRegistered, registeredPatient, treePatient,
      vitalsPatient, chestPatient, noteIf, hs, hb, ht, h6, h8, h9, h10]

/-- Witness for the amended C6: the scenario with age 70 and SpO2 92. -/
theorem pleuritic_keeps_amber_and_appends_note_witness :
    pleuriticScenario pleuriticInput ∧
      ∃ p out, runSession pleuriticInput = .returned p out ∧ p.code = .AMBER_HOSPITAL ∧
        p.clinicalNotes = "Hypoxia (91-94%). Pleuritic Pain. " :=
  ⟨by decide, pleuritic_keeps_amber_and_appends_note pleuriticInput (by decide)⟩

/-! ## Notes and the vitals rule table -/

theorem noteIf_congr {a b : Prop} [Decidable a] [Decidable b] (h : a ↔ b) (s : String) :
    noteIf a s = noteIf b s := by
  unfold noteIf
  by_cases hb : b
  · rw [if_pos hb, if_pos (h.mpr hb)]
  · rw [if_neg hb, if_neg (fun ha => hb (h.mp ha))]

theorem hypoxia_rule_iff {spO2 : Int} (h : ¬ (spO2 > 0 ∧ spO2 ≤ 90)) :
    (spO2 > 0 ∧ spO2 ≤ 94) ↔ (91 ≤ spO2 ∧ spO2 ≤ 94) := by
  constructor <;> intro <;> omega

theorem pregnancy_rule_iff (inp : Input) (p : Patient) :
    ((toupper p.gender = 'F' ∧ p.age ≥ 12 ∧ p.age ≤ 50) ∧ inp.pregnancy = true) ↔
      ((p.gender = 'F' ∨ p.gender = 'f') ∧ 12 ≤ p.age ∧ p.age ≤ 50 ∧ inp.pregnancy = true) := by
  rw [toupper_eq_F, and_assoc, and_assoc]

theorem vitalsPatient_notes (inp : Input) (p : Patient) (h : ¬ (inp.spO2 > 0 ∧ inp.spO2 ≤ 90)) :
    (vitalsPatient inp p).clinicalNotes =
      p.clinicalNotes ++ vitalsNotes p.age inp.spO2 inp.sysBP inp.temp := by
  show p.clinicalNotes ++ noteIf (inp.spO2 > 0 ∧ inp.spO2 ≤ 94) "Hypoxia (91-94%). " ++
      noteIf (p.age > 12 ∧ inp.sysBP > 220) "Hypertensive Crisis Risk. " ++
      noteIf (inp.temp > 38 ∧ p.age ≥ 75) "Elderly Fever Risk. " =
    p.clinicalNotes ++ (noteIf (91 ≤ inp.spO2 ∧ inp.spO2 ≤ 94) "Hypoxia (91-94%). " ++
      noteIf (p.age > 12 ∧ inp.sysBP > 220) "Hypertensive Crisis Risk. " ++
      noteIf (inp.temp > 38 ∧ p.age ≥ 75) "Elderly Fever Risk. ")
  rw [noteIf_congr (hypoxia_rule_iff h), String.append_assoc, String.append_assoc,
    String.append_assoc]

theorem vitalsPatient_code (inp : Input) (p : Patient) (h : ¬ (inp.spO2 > 0 ∧ inp.spO2 ≤ 90)) :
    (vitalsPatient inp p).code.toInt =
      Min.min p.code.toInt (mostUrgentOrdinal (vitalsProposals p.age inp.spO2 inp.sysBP inp.temp)) := by
  show (((p.code.minIf (inp.spO2 > 0 ∧ inp.spO2 ≤ 94) .AMBER_HOSPITAL).minIf
      (p.age > 12 ∧ inp.sysBP > 220) .ORANGE_MAJOR).minIf
      (inp.temp > 38 ∧ p.age ≥ 75) .AMBER_HOSPITAL).toInt = _
  rw [UrgencyCode.minIf_toInt, UrgencyCode.minIf_toInt, UrgencyCode.minIf_toInt,
    mostUrgentOrdinal_ite_congr (hypoxia_rule_iff h)]
  simp only [vitalsProposals, mostUrgentOrdinal_append, min_assoc]

/-- C7: notes are appended whenever a rule fires, whatever the prior code. For every prior
record (any code, any notes) each stage that returns leaves as notes exactly the prior
notes followed by the note texts of the rules that fired, in rule order: hypoxia 91-94,
hypertensive crisis and elderly fever in the vitals check; cardiac chest pain or else
pleuritic pain in the chest tree; pregnancy risk and possible appendicitis in the stomach
tree; concussion with LOC and head injury + vomiting in the head tree. Prior notes are
never removed or altered. -/
theorem notes_appended_whenever_rule_fires (inp : Input) (p p' : Patient)
    (out out' : List Output) :
    (checkVitals inp p out = .returned p' out' →
      p'.clinicalNotes = p.clinicalNotes ++ vitalsNotes p.age inp.spO2 inp.sysBP inp.temp) ∧
    (assessChest inp p out = .returned p' out' →
      p'.clinicalNotes = p.clinicalNotes ++ chestNotes inp) ∧
    (assessStomach inp p out = .returned p' out' →
      p'.clinicalNotes = p.clinicalNotes ++ stomachNotes inp p) ∧
    (assessHead inp p out = .returned p' out' →
      p'.clinicalNotes = p.clinicalNotes ++ headNotes inp) := by
  refine ⟨?_, ?_, ?_, ?_⟩
  · intro h
    rw [checkVitals_spec] at h
    obtain ⟨hv, rfl, -⟩ := Result.stage_eq_returned h
    have hn := (vitalsEmergency_eq_none_iff inp p).mp hv
    exact vitalsPatient_notes inp p (fun hc => hn (Or.inl hc))
  · intro h
    rw [assessChest_spec] at h
    obtain ⟨-, rfl, -⟩ := Result.stage_eq_returned h
    show p.clinicalNotes ++ noteIf _ _ ++ noteIf _ _ = p.clinicalNotes ++ (noteIf _ _ ++ noteIf _ _)
    rw [String.append_assoc]
  · intro h
    rw [assessStomach_spec] at h
    obtain ⟨-, rfl, -⟩ := Result.stage_eq_returned h
    show p.clinicalNotes ++ noteIf _ _ ++ noteIf _ _ =
      p.clinicalNotes ++
        (noteIf ((p.gender = 'F' ∨ p.gender = 'f') ∧ 12 ≤ p.age ∧ p.age ≤ 50 ∧
          inp.pregnancy = true) "Pregnancy Risk (Rule out Ectopic). " ++
          noteIf (inp.lowerRight = true) "Possible Appendicitis. ")
    rw [noteIf_congr (pregnancy_rule_iff inp p), String.append_assoc]
  · intro h
    rw [assessHead_spec] at h
    obtain ⟨-, rfl, -⟩ := Result.stage_eq_returned h
    show p.clinicalNotes ++ noteIf _ _ ++ noteIf _ _ = p.clinicalNotes ++ (noteIf _ _ ++ noteIf _ _)
    rw [String.append_assoc]

/-- Witness for C7: on a patient already at ORANGE the pleuritic rule (proposal YELLOW)
fires in the chest tree; the code stays ORANGE and the pleuritic note is appended after
the earlier note. -/
theorem notes_appended_whenever_rule_fires_witness :
    assessChest pleuriticInput orangePatient [] =
        .returned
          { orangePatient with
            symptomCategory := 1, clinicalNotes := "Earlier note. Pleuritic Pain. " }
          [.heading "[ASSESSING CHEST/HEART]", .prompt "Is the patient cold, clammy, or pale?",
           .prompt "Is there heavy pressure/crushing pain?",
           .prompt "Does pain radiate to jaw, neck or left arm?",
           .prompt "Is pain worse when breathing in?"] ∧
      chestNotes pleuriticInput = "Pleuritic Pain. " ∧
      "Earlier note. Pleuritic Pain. " = orangePatient.clinicalNotes ++ chestNotes pleuriticInput :=
  ⟨by rfl, by decide,
    (notes_appended_whenever_rule_fires pleuriticInput orangePatient
      { orangePatient with
        symptomCategory := 1, clinicalNotes := "Earlier note. Pleuritic Pain. " }
      []
      [.heading "[ASSESSING CHEST/HEART]", .prompt "Is the patient cold, clammy, or pale?",
       .prompt "Is there heavy pressure/crushing pain?",
       .prompt "Does pain radiate to jaw, neck or left arm?",
       .prompt "Is pain worse when breathing in?"]).2.1 (by rfl)⟩

/-- C9: `checkVitals` on inputs that raise no emergency equals the vitals rule table. For
every age, prior code and prior notes and every SpO2, systolic BP and temperature for
which no vitals emergency condition holds, `checkVitals` returns; the ordinal of the
resulting code is the minimum of the prior ordinal and the ordinals of AMBER if SpO2 is in
91..94, ORANGE if age > 12 and BP > 220, AMBER if temperature > 38.0 and age >= 75; the
resulting notes are the prior notes followed, in this order, by the hypoxia, hypertensive
crisis and elderly fever notes of exactly the rules that fired. When SpO2 is >= 95 or
skipped, BP is at most 220 (or the age at most 12), and the temperature is at most 38.0
or the age is in 1..74, code and notes are unchanged. -/
theorem checkVitals_equals_rule_table (inp : Input) (p : Patient) (out : List Output)
    (h : ¬ vitalsEmergencyCondition p.age inp.spO2 inp.sysBP inp.temp) :
    ∃ p' out', checkVitals inp p out = .returned p' out' ∧
      p'.code.toInt =
        Min.min p.code.toInt
          (mostUrgentOrdinal (vitalsProposals p.age inp.spO2 inp.sysBP inp.temp)) ∧
      p'.clinicalNotes = p.clinicalNotes ++ vitalsNotes p.age inp.spO2 inp.sysBP inp.temp ∧
      ((inp.spO2 ≥ 95 ∨ inp.spO2 ≤ 0) → (inp.sysBP ≤ 220 ∨ p.age ≤ 12) →
        (inp.temp ≤ 38 ∨ (1 ≤ p.age ∧ p.age ≤ 74)) →
        p'.code = p.code ∧ p'.clinicalNotes = p.clinicalNotes) := by
  have hs : ¬ (inp.spO2 > 0 ∧ inp.spO2 ≤ 90) := fun hc => h (Or.inl hc)
  refine ⟨vitalsPatient inp p, out ++ vitalsLog inp p, ?_, vitalsPatient_code inp p hs,
    vitalsPatient_notes inp p hs, ?_⟩
  · rw [checkVitals_spec, (vitalsEmergency_eq_none_iff inp p).mpr h]
    rfl
  · intro h1 h2 h3
    have c1 : ¬ (inp.spO2 > 0 ∧ inp.spO2 ≤ 94) := by omega
    have c2 : ¬ (p.age > 12 ∧ inp.sysBP > 220) := by omega
    have c3 : ¬ (inp.temp > 38 ∧ p.age ≥ 75) := by
      rintro ⟨ht, ha⟩
      rcases h3 with h3 | h3
      · exact absurd ht (not_lt.mpr h3)
      · omega
    constructor
    · show ((p.code.minIf _ _).minIf _ _).minIf _ _ = p.code
      simp only [UrgencyCode.minIf, if_neg c1, if_neg c2, if_neg c3]
    · show p.clinicalNotes ++ noteIf _ _ ++ noteIf _ _ ++ noteIf _ _ = p.clinicalNotes
      simp only [noteIf, if_neg c1, if_neg c2, if_neg c3, String.append_empty]

/-- Witness for C9: age 80, SpO2 93, BP 230, temperature 39 on a BLUE patient: the three
rules fire, the code is ORANGE (ordinal 2) and the three notes are appended in order. -/
theorem checkVitals_equals_rule_table_witness :
    ¬ vitalsEmergencyCondition 80 93 230 39 ∧
      vitalsProposals 80 93 230 39 = [.AMBER_HOSPITAL, .ORANGE_MAJOR, .AMBER_HOSPITAL] ∧
      vitalsNotes 80 93 230 39 =
        "Hypoxia (91-94%). Hypertensive Crisis Risk. Elderly Fever Risk. " ∧
      ∃ p' out', checkVitals vitalsAllInput { age := 80 } [] = .returned p' out' ∧
        p'.code.toInt = Min.min 6 (mostUrgentOrdinal (vitalsProposals 80 93 230 39)) ∧
        p'.clinicalNotes = "" ++ vitalsNotes 80 93 230 39 ∧
        ((vitalsAllInput.spO2 ≥ 95 ∨ vitalsAllInput.spO2 ≤ 0) →
          (vitalsAllInput.sysBP ≤ 220 ∨ (80 : Int) ≤ 12) →
          (vitalsAllInput.temp ≤ 38 ∨ ((1 : Int) ≤ 80 ∧ (80 : Int) ≤ 74)) →
          p'.code = .BLUE_PHARMACY ∧ p'.clinicalNotes = "") :=
  ⟨by decide, by decide, by decide,
    checkVitals_equals_rule_table vitalsAllInput { age := 80 } [] (by decide)⟩

/-- C10: blood-pressure age gating is strict. For every patient with age <= 12 and every
two systolic BP values, `checkVitals` run with the one and with the other, all else equal,
gives the same result (same exit or return, same record, same output); it never exits with
the hypotension reason, and when it returns the BP field is untouched, the code is the
prior code escalated at most by the hypoxia rule (AMBER for SpO2 91..94) and the notes are
the prior notes followed at most by the hypoxia note: no hypertensive escalation. -/
theorem bp_ignored_up_to_age_12 (inp : Input) (p : Patient) (out : List Output) (b1 b2 : Int)
    (h : p.age ≤ 12) :
    checkVitals { inp with sysBP := b1 } p out = checkVitals { inp with sysBP := b2 } p out ∧
    (∀ r o, checkVitals { inp with sysBP := b1 } p out = .exited r o →
      r ≠ "Hypotension / Shock (BP < 90)") ∧
    (∀ p' o, checkVitals { inp with sysBP := b1 } p out = .returned p' o →
      p'.sysBP = p.sysBP ∧
      p'.code = p.code.minIf (91 ≤ inp.spO2 ∧ inp.spO2 ≤ 94) .AMBER_HOSPITAL ∧
      p'.clinicalNotes =
        p.clinicalNotes ++ noteIf (91 ≤ inp.spO2 ∧ inp.spO2 ≤ 94) "Hypoxia (91-94%). ") := by
  have ha : ¬ p.age > 12 := by omega
  have hj : ¬ p.age ≥ 75 := by omega
  have hE : ∀ b, vitalsEmergency { inp with sysBP := b } p =
      if inp.spO2 > 0 ∧ inp.spO2 ≤ 90 then some "Severe Hypoxia (SpO2 <= 90%)"
      else if inp.temp > 38 ∧ p.age = 0 then some "Infant Fever (Sepsis Risk)" else none := by
    intro b
    simp only [vitalsEmergency, ha, false_and, if_false]
  have hL : ∀ b, vitalsLog { inp with sysBP := b } p =
      [.heading "[VITALS CHECK]", .prompt "SpO2 % (0 to skip): "] ++
        if inp.spO2 > 0 ∧ inp.spO2 ≤ 90 then [] else [.prompt "Temp (C) (0 to skip): "] := by
    intro b
    simp only [vitalsLog, ha, false_and, if_false, List.nil_append]
  have hP : ∀ b, vitalsPatient { inp with sysBP := b } p =
      { p with
        spO2 := inp.spO2, temp := inp.temp,
        code := p.code.minIf (inp.spO2 > 0 ∧ inp.spO2 ≤ 94) .AMBER_HOSPITAL,
        clinicalNotes :=
          p.clinicalNotes ++ noteIf (inp.spO2 > 0 ∧ inp.spO2 ≤ 94) "Hypoxia (91-94%). " } := by
    intro b
    simp only [vitalsPatient, UrgencyCode.minIf, noteIf, ha, hj, and_false, false_and, if_false,
      String.append_empty]
  refine ⟨?_, ?_, ?_⟩
  · rw [checkVitals_spec, checkVitals_spec, hE b1, hE b2, hL b1, hL b2, hP b1, hP b2]
  · intro r o hr
    rw [checkVitals_spec, hE b1] at hr
    obtain ⟨he, -⟩ := Result.stage_eq_exited hr
    split_ifs at he
    · rw [← Option.some.inj he]
      decide
    · rw [← Option.some.inj he]
      decide
  · intro p' o hr
    rw [checkVitals_spec, hE b1, hP b1] at hr
    obtain ⟨he, rfl, -⟩ := Result.stage_eq_returned hr
    have hs : ¬ (inp.spO2 > 0 ∧ inp.spO2 ≤ 90) := by
      intro hc
      rw [if_pos hc] at he
      exact absurd he (by simp)
    refine ⟨rfl, ?_, ?_⟩
    · show p.code.minIf _ _ = _
      simp only [UrgencyCode.minIf, hypoxia_rule_iff hs]
    · show p.clinicalNotes ++ noteIf _ _ = _
      rw [noteIf_congr (hypoxia_rule_iff hs)]

/-- Witness for C10: a child of 8 with SpO2 93: BP readings 60 and 250 give the same
result. -/
theorem bp_ignored_up_to_age_12_witness :
    ({ age := 8 } : Patient).age ≤ 12 ∧
      checkVitals { childInput with sysBP := 60 } { age := 8 } [] =
        checkVitals { childInput with sysBP := 250 } { age := 8 } [] :=
  ⟨by decide, (bp_ignored_up_to_age_12 childInput { age := 8 } [] 60 250 (by decide)).1⟩

theorem headQuietScenario_no_emergency {inp : Input} (h : headQuietScenario inp) :
    ¬ emergencyCondition inp := by
  obtain ⟨h1, h2, h3, h4, h5, h6⟩ := h
  have ht : ¬ inp.temp > 38 := fun hc => by linarith
  unfold emergencyCondition
  rintro (hc | hc | hc | hc | hc | hc | hc)
  · omega
  · omega
  · exact ht hc.1
  · omega
  · omega
  · rcases h6 with h6 | h6
    · omega
    · rw [h6] at hc
      exact absurd hc.2.2 (by decide)
  · rw [h5] at hc
    exact absurd hc.2.1 (by decide)

/-- C8: in every session with all three vitals skipped, the head branch selected, head
struck answered no, and age <= 40 or the FAST question answered no, the session completes
with final code BLUE, empty clinical notes and symptom category 3 (Head), and the
safety-netting block is printed (BLUE is less urgent than AMBER), as the last output, with
the advisory lines keyed by category Head (not the lines of the `default` case) and no
other advisory lines. -/
theorem quiet_head_session_blue_with_head_advice (inp : Input) (h : headQuietScenario inp) :
    ∃ p out, runSession inp = .returned p out ∧ p.code = .BLUE_PHARMACY ∧
      p.clinicalNotes = "" ∧ p.symptomCategory = 3 ∧
      out.getLast? = some (.safetyNetting headAdvice) ∧
      (∀ a, Output.safetyNetting a ∈ out → a = headAdvice) ∧ headAdvice ≠ defaultAdvice := by
  have hrun := runSession_of_no_emergency (headQuietScenario_no_emergency h)
  obtain ⟨h1, h2, h3, h4, h5, h6⟩ := h
  have ht : ¬ inp.temp > 38 := fun hc => by linarith
  have hs : ¬ (inp.spO2 > 0 ∧ inp.spO2 ≤ 94) := by omega
  have hb : ¬ inp.sysBP > 220 := by omega
  have hcode : (sessionFinal inp).code = .BLUE_PHARMACY := by
    simp [sessionFinal, sessionVitals, sessionRegistered, registeredPatient, treePatient,
      vitalsPatient, headPatient, UrgencyCode.minIf, hs, hb, ht, h4, h5]
  have hcat : (sessionFinal inp).symptomCategory = 3 := by
    simp [sessionFinal, treePatient, headPatient, h4]
  have hnotes : (sessionFinal inp).clinicalNotes = "" := by
    simp [sessionFinal, sessionVitals, sessionRegistered, registeredPatient, treePatient,
      vitalsPatient, headPatient, noteIf, hs, hb, ht, h4, h5]
  have hsafe : safetyLog (sessionFinal inp) = [.safetyNetting headAdvice] := by
    have hn : ¬ (UrgencyCode.BLUE_PHARMACY.toInt ≤ UrgencyCode.AMBER_HOSPITAL.toInt) := by decide
    simp only [safetyLog, hcode, hcat, if_neg hn, adviceFor]
    rfl
  refine ⟨_, _, hrun, hcode, hnotes, hcat, ?_, ?_, by decide⟩
  · simp [resolutionLog, hsafe]
  · intro a ha
    rcases List.mem_append.mp ha with ha | ha
    · exact absurd (dialogueLog_isDialogue inp _ ha) (by simp [Output.isDialogue])
    · simp only [resolutionLog, hsafe, hcode, waitOutput] at ha
      simpa using ha

/-- Witness for C8: age 30, all vitals skipped, head branch, head not struck. -/
theorem quiet_head_session_blue_with_head_advice_witness :
    headQuietScenario headQuietInput ∧
      ∃ p out, runSession headQuietInput = .returned p out ∧ p.code = .BLUE_PHARMACY ∧
        p.clinicalNotes = "" ∧ p.symptomCategory = 3 ∧
        out.getLast? = some (.safetyNetting headAdvice) ∧
        (∀ a, Output.safetyNetting a ∈ out → a = headAdvice) ∧ headAdvice ≠ defaultAdvice :=
  ⟨by decide, quiet_head_session_blue_with_head_advice headQuietInput (by decide)⟩

/-! ## Zero readings -/

theorem Result.stage_verdict (em : Option String) (log : List Output) (a : Patient)
    (out : List Output) :
    (Result.stage em log a out).verdict =
      match em with
      | some r => .inl r
      | none => .inr (a.code, a.clinicalNotes) := by
  cases em <;> rfl

theorem checkVitals_verdict (inp : Input) (p : Patient) (out : List Output) :
    (checkVitals inp p out).verdict =
      match vitalsEmergency inp p with
      | some r => .inl r
      | none => .inr ((vitalsPatient inp p).code, (vitalsPatient inp p).clinicalNotes) := by
  rw [checkVitals_spec, Result.stage_verdict]

/-- C11 as stated fails: with the readings SpO2 = 0 and systolic BP = 0 typed for a patient
of 30, `checkVitals` raises neither the Severe Hypoxia nor the Hypotension/Shock emergency;
it returns with code and notes untouched. -/
theorem zero_reading_is_measurement_counterexample :
    quietInput.spO2 = 0 ∧ quietInput.sysBP = 0 ∧ ({ age := 30 } : Patient).age > 12 ∧
      (¬ ∃ o, checkVitals quietInput { age := 30 } [] =
        .exited "Severe Hypoxia (SpO2 <= 90%)" o) ∧
      (¬ ∃ o, checkVitals quietInput { age := 30 } [] =
        .exited "Hypotension / Shock (BP < 90)" o) ∧
      (checkVitals quietInput { age := 30 } []).verdict = .inr (.BLUE_PHARMACY, "") := by
  have h : checkVitals quietInput { age := 30 } [] =
      .returned { age := 30, spO2 := 0, sysBP := 0, temp := 0 }
        [.heading "[VITALS CHECK]", .prompt "SpO2 % (0 to skip): ",
         .prompt "Systolic BP (0 to skip): ", .prompt "Temp (C) (0 to skip): "] := by rfl
  refine ⟨rfl, rfl, by decide, ?_, ?_, ?_⟩
  · rintro ⟨o, ho⟩
    rw [h] at ho
    exact absurd ho (by simp)
  · rintro ⟨o, ho⟩
    rw [h] at ho
    exact absurd ho (by simp)
  · rw [h]
    rfl

/-- C11 amended: a reading of exactly 0 is the skip value of the prompts ("0 to skip") and
is treated like the not-provided value -1 of the record. For every age, prior record and
other readings: with SpO2 = 0 `checkVitals` never raises Severe Hypoxia, with systolic
BP = 0 it never raises Hypotension/Shock, the outcome (exit reason, or code and notes) with
a reading 0 is the outcome with the reading -1, and with all three readings 0 it returns
with code and notes unchanged. -/
theorem zero_reading_is_skipped (inp : Input) (p : Patient) (out : List Output) :
    (checkVitals { inp with spO2 := 0 } p out).verdict ≠ .inl "Severe Hypoxia (SpO2 <= 90%)" ∧
    (checkVitals { inp with sysBP := 0 } p out).verdict ≠ .inl "Hypotension / Shock (BP < 90)" ∧
    (checkVitals { inp with spO2 := 0 } p out).verdict =
      (checkVitals { inp with spO2 := -1 } p out).verdict ∧
    (checkVitals { inp with sysBP := 0 } p out).verdict =
      (checkVitals { inp with sysBP := -1 } p out).verdict ∧
    (checkVitals { inp with spO2 := 0, sysBP := 0, temp := 0 } p out).verdict =
      .inr (p.code, p.clinicalNotes) := by
  refine ⟨?_, ?_, ?_, ?_, ?_⟩
  · rw [checkVitals_verdict]
    simp only [vitalsEmergency]
    split_ifs <;> simp_all
  · rw [checkVitals_verdict]
    simp only [vitalsEmergency]
    split_ifs <;> simp_all
  · rw [checkVitals_verdict, checkVitals_verdict]
    simp [vitalsEmergency, vitalsPatient, UrgencyCode.minIf, noteIf]
  · rw [checkVitals_verdict, checkVitals_verdict]
    simp [vitalsEmergency, vitalsPatient, UrgencyCode.minIf, noteIf]
  · have h38 : ¬ ((38 : ℚ) < 0) := by norm_num
    rw [checkVitals_verdict]
    simp [vitalsEmergency, vitalsPatient, UrgencyCode.minIf, noteIf, h38]

/-! ## The symptom trees -/

/-- C12: `assessChest` equals the chest decision tree. For every prior record and answers:
cold/clammy yes gives the emergency "Cardiac Shock Signs"; otherwise crushing or radiating
gives code min(c, ORANGE) and the cardiac note appended, whatever the inhalation answer
(that question is not asked); otherwise worse on inhalation gives code min(c, YELLOW) and
the pleuritic note appended; otherwise code and notes are unchanged. Whenever it returns
the symptom category is 1 (Chest) and nothing else in the record changes. -/
theorem assessChest_equals_chest_tree (inp : Input) (p : Patient) (out : List Output) :
    (inp.cold = true → ∃ o, assessChest inp p out = .exited "Cardiac Shock Signs" o) ∧
    (inp.cold = false → (inp.crushing = true ∨ inp.radiating = true) →
      (∃ o, assessChest inp p out =
        .returned
          { p with
            symptomCategory := 1, code := p.code.min .ORANGE_MAJOR,
            clinicalNotes := p.clinicalNotes ++ "Cardiac Chest Pain (STEMI Risk). " } o) ∧
      ∀ b, assessChest { inp with worseInhale := b } p out = assessChest inp p out) ∧
    (inp.cold = false → inp.crushing = false → inp.radiating = false →
      inp.worseInhale = true →
      ∃ o, assessChest inp p out =
        .returned
          { p with
            symptomCategory := 1, code := p.code.min .YELLOW_WALK_IN,
            clinicalNotes := p.clinicalNotes ++ "Pleuritic Pain. " } o) ∧
    (inp.cold = false → inp.crushing = false → inp.radiating = false →
      inp.worseInhale = false →
      ∃ o, assessChest inp p out = .returned { p with symptomCategory := 1 } o) := by
  refine ⟨?_, ?_, ?_, ?_⟩
  · intro hc
    refine ⟨out ++ chestLog inp ++ [.emergency999 "Cardiac Shock Signs"], ?_⟩
    rw [assessChest_spec]
    simp [chestEmergency, Result.stage, hc]
  · intro hc hcr
    constructor
    · refine ⟨out ++ chestLog inp, ?_⟩
      rw [assessChest_spec]
      simp [chestEmergency, chestPatient, Result.stage, UrgencyCode.minIf, noteIf, hc, hcr]
    · intro b
      rw [assessChest_spec, assessChest_spec]
      rcases hcr with hcr | hcr <;>
        simp [chestEmergency, chestPatient, chestLog, Result.stage, UrgencyCode.minIf, noteIf, hc,
          hcr]
  · intro hc h1 h2 h3
    refine ⟨out ++ chestLog inp, ?_⟩
    rw [assessChest_spec]
    simp [chestEmergency, chestPatient, Result.stage, UrgencyCode.minIf, noteIf, hc, h1, h2, h3]
  · intro hc h1 h2 h3
    refine ⟨out ++ chestLog inp, ?_⟩
    rw [assessChest_spec]
    simp [chestEmergency, chestPatient, Result.stage, UrgencyCode.minIf, noteIf, hc, h1, h2, h3]

/-- Witness for C12: crushing pain on a BLUE patient of 60 gives ORANGE with the cardiac
note, and the inhalation question is not asked. -/
theorem assessChest_equals_chest_tree_witness :
    assessChest { quietInput with choice := 1, crushing := true } { age := 60 } [] =
      .returned
        { age := 60, symptomCategory := 1, code := .ORANGE_MAJOR,
          clinicalNotes := "Cardiac Chest Pain (STEMI Risk). " }
        [.heading "[ASSESSING CHEST/HEART]", .prompt "Is the patient cold, clammy, or pale?",
         .prompt "Is there heavy pressure/crushing pain?",
         .prompt "Does pain radiate to jaw, neck or left arm?"] ∧
      ∀ b, assessChest { quietInput with choice := 1, crushing := true, worseInhale := b }
          { age := 60 } [] =
        assessChest { quietInput with choice := 1, crushing := true } { age := 60 } [] :=
  ⟨by rfl,
    ((assessChest_equals_chest_tree { quietInput with choice := 1, crushing := true }
      { age := 60 } []).2.1 (by rfl) (Or.inl (by rfl))).2⟩

theorem UrgencyCode.min_min_self (c d : UrgencyCode) : (c.min d).min d = c.min d := by
  cases c <;> cases d <;> decide

/-- C13: `assessStomach` equals the stomach decision tree. For every patient with age > 50
(any sex, prior code and notes) tearing pain yes gives the emergency "Suspected AAA
Rupture" whatever the pregnancy and lower-right answers. Otherwise (age <= 50 or tearing no)
the tree returns with category 2; the code is min(c, AMBER) if the pregnancy rule fires
(sex 'F' or 'f', 12 <= age <= 50, pregnancy possible yes) or the lower-right rule fires, and
c if neither fires; the notes are the prior notes followed by the pregnancy note and then
the appendicitis note for exactly the rules that fired. When the sex is not female or the
age is outside [12,50] the pregnancy answer has no effect. -/
theorem assessStomach_equals_stomach_tree (inp : Input) (p : Patient) (out : List Output) :
    (p.age > 50 → inp.tearing = true →
      ∃ o, assessStomach inp p out = .exited "Suspected AAA Rupture" o) ∧
    (¬ (p.age > 50 ∧ inp.tearing = true) →
      ∃ p' o, assessStomach inp p out = .returned p' o ∧ p'.symptomCategory = 2 ∧
        p'.code =
          (if ((p.gender = 'F' ∨ p.gender = 'f') ∧ 12 ≤ p.age ∧ p.age ≤ 50 ∧
              inp.pregnancy = true) ∨ inp.lowerRight = true
            then p.code.min .AMBER_HOSPITAL else p.code) ∧
        p'.clinicalNotes = p.clinicalNotes ++ stomachNotes inp p) ∧
    (¬ ((p.gender = 'F' ∨ p.gender = 'f') ∧ 12 ≤ p.age ∧ p.age ≤ 50) →
      ∀ b, assessStomach { inp with pregnancy := b } p out = assessStomach inp p out) := by
  refine ⟨?_, ?_, ?_⟩
  · intro ha ht
    refine ⟨out ++ stomachLog inp p ++ [.emergency999 "Suspected AAA Rupture"], ?_⟩
    rw [assessStomach_spec]
    simp [stomachEmergency, Result.stage, ha, ht]
  · intro hn
    refine ⟨stomachPatient inp p, out ++ stomachLog inp p, ?_, rfl, ?_, ?_⟩
    · rw [assessStomach_spec]
      simp only [stomachEmergency, if_neg hn, Result.stage]
    · show (p.code.minIf _ _).minIf _ _ = _
      have e := pregnancy_rule_iff inp p
      by_cases hA : (p.gender = 'F' ∨ p.gender = 'f') ∧ 12 ≤ p.age ∧ p.age ≤ 50 ∧
          inp.pregnancy = true
      · have hA' := e.mpr hA
        by_cases hB : inp.lowerRight = true
        · rw [if_pos (Or.inl hA)]
          simp only [UrgencyCode.minIf, if_pos hA', if_pos hB, UrgencyCode.min_min_self]
        · rw [if_pos (Or.inl hA)]
          simp only [UrgencyCode.minIf, if_pos hA', if_neg hB]
      · have hA' : ¬ ((toupper p.gender = 'F' ∧ p.age ≥ 12 ∧ p.age ≤ 50) ∧
            inp.pregnancy = true) := fun h => hA (e.mp h)
        by_cases hB : inp.lowerRight = true
        · rw [if_pos (Or.inr hB)]
          simp only [UrgencyCode.minIf, if_neg hA', if_pos hB]
        · rw [if_neg (fun h => h.elim hA hB)]
          simp only [UrgencyCode.minIf, if_neg hA', if_neg hB]
    · show p.clinicalNotes ++ noteIf _ _ ++ noteIf _ _ =
        p.clinicalNotes ++
          (noteIf ((p.gender = 'F' ∨ p.gender = 'f') ∧ 12 ≤ p.age ∧ p.age ≤ 50 ∧
            inp.pregnancy = true) "Pregnancy Risk (Rule out Ectopic). " ++
            noteIf (inp.lowerRight = true) "Possible Appendicitis. ")
      rw [noteIf_congr (pregnancy_rule_iff inp p), String.append_assoc]
  · intro hg b
    have hg' : ¬ (toupper p.gender = 'F' ∧ p.age ≥ 12 ∧ p.age ≤ 50) := by
      rw [toupper_eq_F]
      exact hg
    rw [assessStomach_spec, assessStomach_spec]
    simp [stomachEmergency, stomachLog, stomachPatient, hg']

/-- Witness for C13: age 55 with tearing pain exits with the AAA reason although the
pregnancy and lower-right answers are yes. -/
theorem assessStomach_equals_stomach_tree_witness :
    ({ age := 55, gender := 'F' } : Patient).age > 50 ∧
      ∃ o, assessStomach
          { quietInput with choice := 2, tearing := true, pregnancy := true, lowerRight := true }
          { age := 55, gender := 'F' } [] = .exited "Suspected AAA Rupture" o :=
  ⟨by decide,
    (assessStomach_equals_stomach_tree
      { quietInput with choice := 2, tearing := true, pregnancy := true, lowerRight := true }
      { age := 55, gender := 'F' } []).1 (by decide) (by rfl)⟩

/-- When the AAA rule fires, `assessStomach` prints its heading, the tearing question and
the 999 block, and nothing else. -/
theorem assessStomach_aaa (inp : Input) (p : Patient) (out : List Output) (ha : p.age > 50)
    (ht : inp.tearing = true) :
    assessStomach inp p out =
      .exited "Suspected AAA Rupture"
        (out ++ [.heading "[ASSESSING STOMACH]",
          .prompt "Is there tearing pain radiating to the back?",
          .emergency999 "Suspected AAA Rupture"]) := by
  rw [assessStomach_spec]
  simp [stomachEmergency, stomachLog, Result.stage, ha, ht]

theorem assessStomach_exited {inp : Input} {p : Patient} {out o : List Output} {r : String}
    (h : assessStomach inp p out = .exited r o) : p.age > 50 ∧ inp.tearing = true := by
  rw [assessStomach_spec] at h
  obtain ⟨he, -⟩ := Result.stage_eq_exited h
  by_contra hn
  rw [stomachEmergency, if_neg hn] at he
  exact absurd he (by simp)

/-- C14 as stated fails: there is no patient and no combination of answers for which, in
one run of `assessStomach`, the AAA rule fires (the run exits with its reason) and the
pregnancy question and the lower-right question are asked and answered yes. -/
theorem stomach_three_rules_fire_counterexample :
    ¬ ∃ (inp : Input) (p : Patient),
      (∃ o, assessStomach inp p [] = .exited "Suspected AAA Rupture" o) ∧
      (Output.prompt "Is there any possibility of pregnancy?" ∈ (assessStomach inp p []).log ∧
        inp.pregnancy = true) ∧
      (Output.prompt "Is pain in the lower right side?" ∈ (assessStomach inp p []).log ∧
        inp.lowerRight = true) := by
  rintro ⟨inp, p, ⟨o, ho⟩, ⟨-, -⟩, ⟨hl, -⟩⟩
  obtain ⟨ha, ht⟩ := assessStomach_exited ho
  rw [assessStomach_aaa inp p [] ha ht] at hl
  simp [Result.log] at hl

/-- C14 amended: in the stomach tree the AAA rule, when it fires (age > 50, tearing yes),
ends the run at once: the heading, the tearing question and the 999 block are all that is
printed, so neither the pregnancy nor the lower-right question is asked and neither of
those rules fires with it. The pregnancy-risk and appendicitis rules are independent of
each other and both may fire in one run: for a woman of 30 answering yes to both, both
questions are asked and both notes are appended. -/
theorem stomach_aaa_alone_others_together (inp : Input) (p : Patient) (out : List Output) :
    (p.age > 50 → inp.tearing = true →
      assessStomach inp p out =
        .exited "Suspected AAA Rupture"
          (out ++ [.heading "[ASSESSING STOMACH]",
            .prompt "Is there tearing pain radiating to the back?",
            .emergency999 "Suspected AAA Rupture"])) ∧
    ((∃ o, assessStomach inp p [] = .exited "Suspected AAA Rupture" o) →
      Output.prompt "Is there any possibility of pregnancy?" ∉ (assessStomach inp p []).log ∧
      Output.prompt "Is pain in the lower right side?" ∉ (assessStomach inp p []).log) ∧
    (∃ p' o, assessStomach stomachBothInput { age := 30, gender := 'F' } [] = .returned p' o ∧
      Output.prompt "Is there any possibility of pregnancy?" ∈ o ∧
      Output.prompt "Is pain in the lower right side?" ∈ o ∧
      p'.code = .AMBER_HOSPITAL ∧
      p'.clinicalNotes = "Pregnancy Risk (Rule out Ectopic). Possible Appendicitis. ") := by
  refine ⟨assessStomach_aaa inp p out, ?_, ?_⟩
  · rintro ⟨o, ho⟩
    obtain ⟨ha, ht⟩ := assessStomach_exited ho
    rw [assessStomach_aaa inp p [] ha ht]
    simp [Result.log]
  · have hrun : assessStomach stomachBothInput { age := 30, gender := 'F' } [] =
        .returned
          { age := 30, gender := 'F', symptomCategory := 2, code := .AMBER_HOSPITAL,
            clinicalNotes := "Pregnancy Risk (Rule out Ectopic). Possible Appendicitis. " }
          [.heading "[ASSESSING STOMACH]", .prompt "Is there any possibility of pregnancy?",
           .prompt "Is pain in the lower right side?"] := by rfl
    exact ⟨_, _, hrun, by decide, by decide, rfl, rfl⟩

/-- Witness for the amended C14: age 55 with tearing pain and both other answers yes. -/
theorem stomach_aaa_alone_others_together_witness :
    ({ age := 55, gender := 'F' } : Patient).age > 50 ∧
      assessStomach
          { quietInput with choice := 2, tearing := true, pregnancy := true, lowerRight := true }
          { age := 55, gender := 'F' } [] =
        .exited "Suspected AAA Rupture"
          ([] ++ [.heading "[ASSESSING STOMACH]",
            .prompt "Is there tearing pain radiating to the back?",
            .emergency999 "Suspected AAA Rupture"]) :=
  ⟨by decide,
    (stomach_aaa_alone_others_together
      { quietInput with choice := 2, tearing := true, pregnancy := true, lowerRight := true }
      { age := 55, gender := 'F' } []).1 (by decide) (by rfl)⟩

/-- C15: `assessHead` equals the head decision tree. For every patient and answers: age > 40
with a FAST sign gives the Stroke emergency; otherwise head not struck leaves code and
notes unchanged, whatever the answers on loss of consciousness, blood thinners and
vomiting; otherwise loss of consciousness gives the Head Injury + Elderly emergency for
age >= 65, else the emergency "Head Injury + Anticoagulants" for blood thinners, else
code min(c, ORANGE) with "Concussion with LOC. " appended; and when no emergency occurred
vomiting further sets the code to min(code, AMBER) and appends "Head Injury + Vomiting. "
after any concussion note. Whenever it returns the category is 3. -/
theorem assessHead_equals_head_tree (inp : Input) (p : Patient) (out : List Output) :
    (p.age > 40 → inp.fast = true →
      ∃ o, assessHead inp p out = .exited "Stroke (FAST Positive)" o) ∧
    (¬ (p.age > 40 ∧ inp.fast = true) → inp.struck = false →
      (∃ o, assessHead inp p out = .returned { p with symptomCategory := 3 } o) ∧
      ∀ l t v, assessHead { inp with loc := l, thinners := t, vomited := v } p out =
        assessHead inp p out) ∧
    (¬ (p.age > 40 ∧ inp.fast = true) → inp.struck = true → inp.loc = true → p.age ≥ 65 →
      ∃ o, assessHead inp p out = .exited "Head Injury + Elderly (Bleed Risk)" o) ∧
    (¬ (p.age > 40 ∧ inp.fast = true) → inp.struck = true → inp.loc = true → p.age < 65 →
      inp.thinners = true →
      ∃ o, assessHead inp p out = .exited "Head Injury + Anticoagulants" o) ∧
    (¬ (p.age > 40 ∧ inp.fast = true) → inp.struck = true →
      ¬ (inp.loc = true ∧ (p.age ≥ 65 ∨ inp.thinners = true)) →
      ∃ o, assessHead inp p out =
        .returned
          { p with
            symptomCategory := 3
            code :=
              if inp.vomited = true then
                (if inp.loc = true then p.code.min .ORANGE_MAJOR else p.code).min .AMBER_HOSPITAL
              else if inp.loc = true then p.code.min .ORANGE_MAJOR else p.code
            clinicalNotes :=
              p.clinicalNotes ++ (if inp.loc = true then "Concussion with LOC. " else "") ++
                (if inp.vomited = true then "Head Injury + Vomiting. " else "") } o) := by
  refine ⟨?_, ?_, ?_, ?_, ?_⟩
  · intro ha hf
    refine ⟨out ++ headLog inp p ++ [.emergency999 "Stroke (FAST Positive)"], ?_⟩
    rw [assessHead_spec]
    simp [headEmergency, Result.stage, ha, hf]
  · intro hs hk
    constructor
    · refine ⟨out ++ headLog inp p, ?_⟩
      rw [assessHead_spec]
      simp [headEmergency, headPatient, Result.stage, UrgencyCode.minIf, noteIf, hs, hk]
    · intro l t v
      rw [assessHead_spec, assessHead_spec]
      simp [headEmergency, headPatient, headLog, Result.stage, UrgencyCode.minIf, noteIf, hs, hk]
  · intro hs hk hl ha
    refine ⟨out ++ headLog inp p ++ [.emergency999 "Head Injury + Elderly (Bleed Risk)"], ?_⟩
    rw [assessHead_spec]
    simp [headEmergency, Result.stage, hs, hk, hl, ha]
  · intro hs hk hl ha ht
    have ha' : ¬ p.age ≥ 65 := by omega
    refine ⟨out ++ headLog inp p ++ [.emergency999 "Head Injury + Anticoagulants"], ?_⟩
    rw [assessHead_spec]
    simp [headEmergency, Result.stage, hs, hk, hl, ha', ht]
  · intro hs hk hn
    refine ⟨out ++ headLog inp p, ?_⟩
    rw [assessHead_spec]
    have he : headEmergency inp p = none := by
      simp only [headEmergency, if_neg hs, hk, true_and]
      rw [if_neg (fun h => hn ⟨h.1, Or.inl h.2⟩), if_neg (fun h => hn ⟨h.1, Or.inr h.2⟩)]
    rw [he]
    rcases hl : inp.loc <;> rcases hv : inp.vomited <;>
      simp [headPatient, Result.stage, UrgencyCode.minIf, noteIf, hk, hl, hv]

/-- Witness for C15: a patient of 30 who struck the head, lost consciousness, takes no
blood thinners and vomited: ORANGE, with the concussion note followed by the vomiting
note. -/
theorem assessHead_equals_head_tree_witness :
    ∃ o, assessHead { quietInput with choice := 3, struck := true, loc := true, vomited := true }
        { age := 30 } [] =
      .returned
        { age := 30, symptomCategory := 3, code := .ORANGE_MAJOR,
          clinicalNotes := "Concussion with LOC. Head Injury + Vomiting. " } o :=
  (assessHead_equals_head_tree
    { quietInput with choice := 3, struck := true, loc := true, vomited := true }
    { age := 30 } []).2.2.2.2 (by decide) (by rfl) (by decide)

/-! ## Symptom selection and wait time -/

/-- C16: the symptom switch maps every integer choice to exactly one tree. Choice 1 runs
`assessChest` and nothing else, choice 2 `assessStomach`, choice 3 `assessHead`; every other
integer (4, 0, negative, 5 and above) takes the Other branch, which prints no question,
sets category 4, appends "General/Fever. " and leaves the code unchanged. The trees set
categories 1, 2 and 3. -/
theorem selectSymptom_maps_choice_to_one_tree (inp : Input) (p : Patient)
    (out : List Output) :
    (inp.choice = 1 → selectSymptom inp p out = assessChest inp p out) ∧
    (inp.choice = 2 → selectSymptom inp p out = assessStomach inp p out) ∧
    (inp.choice = 3 → selectSymptom inp p out = assessHead inp p out) ∧
    (inp.choice ≠ 1 → inp.choice ≠ 2 → inp.choice ≠ 3 →
      selectSymptom inp p out =
        .returned
          { p with
            symptomCategory := 4, clinicalNotes := p.clinicalNotes ++ "General/Fever. " } out) ∧
    (∀ p' o, assessChest inp p out = .returned p' o → p'.symptomCategory = 1) ∧
    (∀ p' o, assessStomach inp p out = .returned p' o → p'.symptomCategory = 2) ∧
    (∀ p' o, assessHead inp p out = .returned p' o → p'.symptomCategory = 3) := by
  refine ⟨?_, ?_, ?_, ?_, ?_, ?_, ?_⟩
  · intro h
    simp only [selectSymptom, if_pos h]
  · intro h
    have h1 : ¬ inp.choice = 1 := by omega
    simp only [selectSymptom, if_neg h1, if_pos h]
  · intro h
    have h1 : ¬ inp.choice = 1 := by omega
    have h2 : ¬ inp.choice = 2 := by omega
    simp only [selectSymptom, if_neg h1, if_neg h2, if_pos h]
  · intro h1 h2 h3
    simp only [selectSymptom, if_neg h1, if_neg h2, if_neg h3]
    rfl
  · intro p' o h
    rw [assessChest_spec] at h
    obtain ⟨-, rfl, -⟩ := Result.stage_eq_returned h
    rfl
  · intro p' o h
    rw [assessStomach_spec] at h
    obtain ⟨-, rfl, -⟩ := Result.stage_eq_returned h
    rfl
  · intro p' o h
    rw [assessHead_spec] at h
    obtain ⟨-, rfl, -⟩ := Result.stage_eq_returned h
    rfl

/-- Witness for C16: choice 7 on a patient at ORANGE takes the Other branch. -/
theorem selectSymptom_maps_choice_to_one_tree_witness :
    ({ quietInput with choice := 7 } : Input).choice ≠ 1 ∧
      selectSymptom { quietInput with choice := 7 } orangePatient [] =
        .returned
          { orangePatient with
            symptomCategory := 4, clinicalNotes := "Earlier note. General/Fever. " } [] :=
  ⟨by decide,
    (selectSymptom_maps_choice_to_one_tree { quietInput with choice := 7 } orangePatient
      []).2.2.2.1 (by decide) (by decide) (by decide)⟩

/-- C17: wait-time bands. For every value of `rand()` the jitter j = rand() % 30 lies in
0..29 (and every j in 0..29 occurs), and after its heading `printEstimatedWait` prints:
immediate entry (0 minutes) for RED, exactly 10 minutes for ORANGE, 60 + j minutes (between
60 and 89) for AMBER, 120 + j minutes (between 120 and 149) for YELLOW, and the "within 48
hours" timeframe, with no minute figure, for GREEN. -/
theorem wait_time_bands (inp : Input) (out : List Output) :
    0 ≤ (inp.rand : Int) % 30 ∧ (inp.rand : Int) % 30 ≤ 29 ∧
    (∀ j : Nat, j < 30 → ((({ inp with rand := j } : Input).rand : Int) % 30 = j)) ∧
    printEstimatedWait inp .RED_CRITICAL out =
      .returned () (out ++ [.heading "[LOGISTICS ESTIMATE]", .waitImmediate]) ∧
    printEstimatedWait inp .ORANGE_MAJOR out =
      .returned () (out ++ [.heading "[LOGISTICS ESTIMATE]", .waitMinutes 10]) ∧
    printEstimatedWait inp .AMBER_HOSPITAL out =
      .returned ()
        (out ++ [.heading "[LOGISTICS ESTIMATE]", .waitMinutes (60 + (inp.rand : Int) % 30)]) ∧
    60 ≤ 60 + (inp.rand : Int) % 30 ∧ 60 + (inp.rand : Int) % 30 ≤ 89 ∧
    printEstimatedWait inp .YELLOW_WALK_IN out =
      .returned ()
        (out ++ [.heading "[LOGISTICS ESTIMATE]", .waitMinutes (120 + (inp.rand : Int) % 30)]) ∧
    120 ≤ 120 + (inp.rand : Int) % 30 ∧ 120 + (inp.rand : Int) % 30 ≤ 149 ∧
    printEstimatedWait inp .GREEN_GP out =
      .returned () (out ++ [.heading "[LOGISTICS ESTIMATE]", .timeframe48h]) := by
  have h0 : 0 ≤ (inp.rand : Int) % 30 := by omega
  have h1 : (inp.rand : Int) % 30 ≤ 29 := by omega
  refine ⟨h0, h1, ?_, ?_, ?_, ?_, by omega, by omega, ?_, by omega, by omega, ?_⟩
  · intro j hj
    show ((j : Nat) : Int) % 30 = j
    omega
  all_goals
    rw [printEstimatedWait_spec]
    rfl

/-- Witness for C17: the jitter value 7 occurs, and with `rand()` = 7 an AMBER patient is
told 67 minutes. -/
theorem wait_time_bands_witness :
    ((({ quietInput with rand := 7 } : Input).rand : Int) % 30 = (7 : Nat)) ∧
      printEstimatedWait quietInput .AMBER_HOSPITAL [] =
        .returned () [.heading "[LOGISTICS ESTIMATE]", .waitMinutes 67] :=
  ⟨(wait_time_bands quietInput []).2.2.1 7 (by decide), by rfl⟩

/-! ## Which emergency, and whether any -/

theorem runSession_of_emergency {inp : Input} {r : String} (h : sessionEmergency inp = some r) :
    runSession inp = .exited r (dialogueLog inp ++ [.emergency999 r]) := by
  rw [runSession_spec, h]

theorem sessionEmergency_of_vitals {inp : Input} {r : String}
    (h : vitalsEmergency inp (sessionRegistered inp) = some r) : sessionEmergency inp = some r := by
  simp only [sessionEmergency, h]

theorem sessionEmergency_of_tree {inp : Input}
    (h : ¬ vitalsEmergencyCondition inp.age inp.spO2 inp.sysBP inp.temp) :
    sessionEmergency inp = treeEmergency inp (sessionVitals inp) := by
  have hv : vitalsEmergency inp (sessionRegistered inp) = none :=
    (vitalsEmergency_eq_none_iff inp (sessionRegistered inp)).mpr h
  simp only [sessionEmergency, hv]

theorem vitalsEmergency_mem (inp : Input) (p : Patient) (r : String)
    (h : vitalsEmergency inp p = some r) :
    r = "Severe Hypoxia (SpO2 <= 90%)" ∨ r = "Hypotension / Shock (BP < 90)" ∨
      r = "Infant Fever (Sepsis Risk)" := by
  simp only [vitalsEmergency] at h
  split_ifs at h
  · exact Or.inl (Option.some.inj h).symm
  · exact Or.inr (Or.inl (Option.some.inj h).symm)
  · exact Or.inr (Or.inr (Option.some.inj h).symm)

/-- C18: when several emergency conditions hold in one session the reason is that of the
earliest rule in program order. In the vitals check Severe Hypoxia (SpO2 in 1..90) wins
whatever the other readings and answers; without it Hypotension/Shock (age > 12, BP in
1..89) wins whatever the temperature; without both, temperature above 38.0 at age 0 gives
Infant Fever. Any vitals emergency wins over every symptom-tree emergency: the reason is
one of the three vitals reasons and the symptom menu is never printed. In the head tree
Stroke (age > 40, FAST yes) wins over the head-injury emergencies, and without it head
struck with loss of consciousness at age >= 65 gives Head Injury + Elderly whatever the
blood-thinner answer. -/
theorem earliest_emergency_wins (inp : Input) :
    (inp.spO2 > 0 ∧ inp.spO2 ≤ 90 →
      ∃ o, runSession inp = .exited "Severe Hypoxia (SpO2 <= 90%)" o) ∧
    (¬ (inp.spO2 > 0 ∧ inp.spO2 ≤ 90) → inp.age > 12 ∧ inp.sysBP > 0 ∧ inp.sysBP < 90 →
      ∃ o, runSession inp = .exited "Hypotension / Shock (BP < 90)" o) ∧
    (¬ (inp.spO2 > 0 ∧ inp.spO2 ≤ 90) → ¬ (inp.age > 12 ∧ inp.sysBP > 0 ∧ inp.sysBP < 90) →
      inp.temp > 38 ∧ inp.age = 0 →
      ∃ o, runSession inp = .exited "Infant Fever (Sepsis Risk)" o) ∧
    (vitalsEmergencyCondition inp.age inp.spO2 inp.sysBP inp.temp →
      ∃ r o, runSession inp = .exited r o ∧ selectPrompt ∉ o ∧
        (r = "Severe Hypoxia (SpO2 <= 90%)" ∨ r = "Hypotension / Shock (BP < 90)" ∨
          r = "Infant Fever (Sepsis Risk)")) ∧
    (¬ vitalsEmergencyCondition inp.age inp.spO2 inp.sysBP inp.temp → inp.choice = 3 →
      inp.age > 40 ∧ inp.fast = true →
      ∃ o, runSession inp = .exited "Stroke (FAST Positive)" o) ∧
    (¬ vitalsEmergencyCondition inp.age inp.spO2 inp.sysBP inp.temp → inp.choice = 3 →
      ¬ (inp.age > 40 ∧ inp.fast = true) →
      inp.struck = true ∧ inp.loc = true ∧ inp.age ≥ 65 →
      ∃ o, runSession inp = .exited "Head Injury + Elderly (Bleed Risk)" o) := by
  have hage : (sessionRegistered inp).age = inp.age := rfl
  have hage' : (sessionVitals inp).age = inp.age := rfl
  refine ⟨?_, ?_, ?_, ?_, ?_, ?_⟩
  · intro h
    refine ⟨_, runSession_of_emergency (sessionEmergency_of_vitals ?_)⟩
    simp only [vitalsEmergency, if_pos h]
  · intro h1 h2
    refine ⟨_, runSession_of_emergency (sessionEmergency_of_vitals ?_)⟩
    simp only [vitalsEmergency, hage, if_neg h1, if_pos h2]
  · intro h1 h2 h3
    refine ⟨_, runSession_of_emergency (sessionEmergency_of_vitals ?_)⟩
    simp only [vitalsEmergency, hage, if_neg h1, if_neg h2, if_pos h3]
  · intro hv
    rcases he : vitalsEmergency inp (sessionRegistered inp) with _ | r
    · exact absurd hv ((vitalsEmergency_eq_none_iff inp (sessionRegistered inp)).mp he)
    · refine ⟨r, _, runSession_of_emergency (sessionEmergency_of_vitals he), ?_,
        vitalsEmergency_mem inp _ r he⟩
      intro hm
      rcases List.mem_append.mp hm with hm | hm
      · exact dialogueLog_no_select inp hv hm
      · simp [selectPrompt] at hm
  · intro hv hc hs
    refine ⟨_, runSession_of_emergency ?_⟩
    have n1 : ¬ inp.choice = 1 := by omega
    have n2 : ¬ inp.choice = 2 := by omega
    rw [sessionEmergency_of_tree hv]
    simp only [treeEmergency, if_neg n1, if_neg n2, if_pos hc, headEmergency, hage', if_pos hs]
  · intro hv hc hs hi
    refine ⟨_, runSession_of_emergency ?_⟩
    have n1 : ¬ inp.choice = 1 := by omega
    have n2 : ¬ inp.choice = 2 := by omega
    rw [sessionEmergency_of_tree hv]
    simp only [treeEmergency, if_neg n1, if_neg n2, if_pos hc, headEmergency, hage', if_neg hs,
      if_pos hi]

/-- Witness for C18: SpO2 85 with BP 60, temperature 39 and a FAST sign on the head branch
at age 70: the reason is Severe Hypoxia. -/
theorem earliest_emergency_wins_witness :
    (manyEmergenciesInput.spO2 > 0 ∧ manyEmergenciesInput.spO2 ≤ 90) ∧
      emergencyCondition { manyEmergenciesInput with spO2 := 0 } ∧
      ∃ o, runSession manyEmergenciesInput = .exited "Severe Hypoxia (SpO2 <= 90%)" o :=
  ⟨by decide, by decide, (earliest_emergency_wins manyEmergenciesInput).1 (by decide)⟩

theorem UrgencyCode.completedCode_minIf {c d : UrgencyCode} (fired : Prop) [Decidable fired]
    (hc : c.completedCode) (hd : d.completedCode) : (c.minIf fired d).completedCode := by
  unfold UrgencyCode.minIf
  split_ifs
  · revert hc hd
    cases c <;> cases d <;> decide
  · exact hc

theorem sessionFinal_completedCode (inp : Input) : (sessionFinal inp).code.completedCode := by
  have hB : UrgencyCode.BLUE_PHARMACY.completedCode := by decide
  have hY : UrgencyCode.YELLOW_WALK_IN.completedCode := by decide
  have hA : UrgencyCode.AMBER_HOSPITAL.completedCode := by decide
  have hO : UrgencyCode.ORANGE_MAJOR.completedCode := by decide
  have hv : (sessionVitals inp).code.completedCode :=
    UrgencyCode.completedCode_minIf _
      (UrgencyCode.completedCode_minIf _ (UrgencyCode.completedCode_minIf _ hB hA) hO) hA
  show (treePatient inp (sessionVitals inp)).code.completedCode
  unfold treePatient
  split_ifs
  · exact UrgencyCode.completedCode_minIf _ (UrgencyCode.completedCode_minIf _ hv hO) hY
  · exact UrgencyCode.completedCode_minIf _ (UrgencyCode.completedCode_minIf _ hv hA) hA
  · exact UrgencyCode.completedCode_minIf _ (UrgencyCode.completedCode_minIf _ hv hO) hA
  · exact hv

theorem waitOutput_kind (inp : Input) (c : UrgencyCode) :
    (∀ r, waitOutput inp c ≠ .emergency999 r) ∧
      (∀ n a c' s, waitOutput inp c ≠ .triageResult n a c' s) := by
  cases c <;> simp [waitOutput]

theorem mem_resolutionLog {inp : Input} {p : Patient} {e : Output}
    (he : e ∈ resolutionLog inp p) :
    (∀ r, e ≠ .emergency999 r) ∧ (∀ n a c s, e = .triageResult n a c s → c = p.code) := by
  have hw := waitOutput_kind inp p.code
  simp only [resolutionLog, safetyLog, List.mem_append, List.mem_cons, List.mem_singleton,
    List.not_mem_nil, or_false] at he
  rcases he with (rfl | rfl | rfl) | he
  · exact ⟨fun r => by simp, fun n a c s h => by simp at h; exact h.2.2.1.symm⟩
  · exact ⟨fun r => by simp, fun n a c s h => by simp at h⟩
  · exact ⟨hw.1, fun n a c s h => absurd h (hw.2 n a c s)⟩
  · split_ifs at he
    · simp at he
    · simp only [List.mem_singleton] at he
      subst he
      exact ⟨fun r => by simp, fun n a c s h => by simp at h⟩

/-- C19: the final code of every session that completes without an emergency is BLUE,
YELLOW, AMBER or ORANGE, never RED or GREEN, and it is the code printed in the result
block; RED is reported only by the 999 block of a session that exits. -/
theorem completed_session_code_never_red_or_green (inp : Input) (p' : Patient)
    (out' : List Output) (h : runSession inp = .returned p' out') :
    (p'.code = .BLUE_PHARMACY ∨ p'.code = .YELLOW_WALK_IN ∨ p'.code = .AMBER_HOSPITAL ∨
      p'.code = .ORANGE_MAJOR) ∧
    p'.code ≠ .RED_CRITICAL ∧ p'.code ≠ .GREEN_GP ∧
    Output.triageResult p'.fullName p'.age p'.code p'.clinicalNotes ∈ out' ∧
    (∀ n a c s, Output.triageResult n a c s ∈ out' → c = p'.code) ∧
    (∀ r, Output.emergency999 r ∉ out') := by
  obtain ⟨-, -, rfl, rfl⟩ := runSession_returned h
  have hc := sessionFinal_completedCode inp
  have hd := dialogueLog_isDialogue inp
  refine ⟨hc, ?_, ?_, ?_, ?_, ?_⟩
  · intro he
    rw [he] at hc
    exact absurd hc (by decide)
  · intro he
    rw [he] at hc
    exact absurd hc (by decide)
  · simp [resolutionLog]
  · intro n a c s hm
    rcases List.mem_append.mp hm with hm | hm
    · exact absurd (hd _ hm) (by simp [Output.isDialogue])
    · exact (mem_resolutionLog hm).2 n a c s rfl
  · intro r hm
    rcases List.mem_append.mp hm with hm | hm
    · exact absurd (hd _ hm) (by simp [Output.isDialogue])
    · exact (mem_resolutionLog hm).1 r rfl

/-- Witness for C19: the pleuritic scenario completes with AMBER. -/
theorem completed_session_code_never_red_or_green_witness :
    runSession pleuriticInput = .returned pleuriticFinal pleuriticOutput ∧
      pleuriticFinal.code = .AMBER_HOSPITAL ∧ pleuriticFinal.code ≠ .RED_CRITICAL ∧
      pleuriticFinal.code ≠ .GREEN_GP :=
  ⟨by rfl, rfl,
    (completed_session_code_never_red_or_green pleuriticInput pleuriticFinal pleuriticOutput
      (by rfl)).2.1,
    (completed_session_code_never_red_or_green pleuriticInput pleuriticFinal pleuriticOutput
      (by rfl)).2.2.1⟩

/-- C20: no spurious emergencies. A session exits through `trigger999` only if one of the
listed emergency conditions holds on its input (SpO2 in 1..90; age > 12 and BP in 1..89;
temperature above 38.0 at age 0; chest and cold/clammy; stomach, age > 50 and tearing; head,
age > 40 and FAST; head struck with loss of consciousness and age >= 65 or blood
thinners). For every input on which none holds the session returns, having printed the
result block with the final code and notes, with symptom category 1, 2, 3 or 4. -/
theorem no_spurious_emergency (inp : Input) :
    (∀ r o, runSession inp = .exited r o → emergencyCondition inp) ∧
    (¬ emergencyCondition inp →
      ∃ p o, runSession inp = .returned p o ∧
        Output.triageResult p.fullName p.age p.code p.clinicalNotes ∈ o ∧
        (∀ r, Output.emergency999 r ∉ o) ∧
        (p.symptomCategory = 1 ∨ p.symptomCategory = 2 ∨ p.symptomCategory = 3 ∨
          p.symptomCategory = 4)) := by
  constructor
  · intro r o h
    obtain ⟨he, -⟩ := runSession_exited h
    by_contra hn
    rw [(sessionEmergency_eq_none_iff inp).mpr hn] at he
    exact absurd he (by simp)
  · intro hn
    refine ⟨_, _, runSession_of_no_emergency hn, by simp [resolutionLog], ?_, ?_⟩
    · intro r hm
      rcases List.mem_append.mp hm with hm | hm
      · exact absurd (dialogueLog_isDialogue inp _ hm) (by simp [Output.isDialogue])
      · exact (mem_resolutionLog hm).1 r rfl
    · have hcat : ∀ q : Patient, q = treePatient inp (sessionVitals inp) →
          q.symptomCategory = 1 ∨ q.symptomCategory = 2 ∨ q.symptomCategory = 3 ∨
            q.symptomCategory = 4 := by
        intro q hq
        unfold treePatient at hq
        split_ifs at hq <;> subst hq
        · exact Or.inl rfl
        · exact Or.inr (Or.inl rfl)
        · exact Or.inr (Or.inr (Or.inl rfl))
        · exact Or.inr (Or.inr (Or.inr rfl))
      exact hcat _ rfl

/-- Witness for C20: with every reading skipped and every answer no on the Other branch no
emergency condition holds and the session returns. -/
theorem no_spurious_emergency_witness :
    ¬ emergencyCondition quietInput ∧
      ∃ p o, runSession quietInput = .returned p o ∧
        Output.triageResult p.fullName p.age p.code p.clinicalNotes ∈ o ∧
        (∀ r, Output.emergency999 r ∉ o) ∧
        (p.symptomCategory = 1 ∨ p.symptomCategory = 2 ∨ p.symptomCategory = 3 ∨
          p.symptomCategory = 4) :=
  ⟨by decide, (no_spurious_emergency quietInput).2 (by decide)⟩

end NHSTriage
